import Mathlib

/-!
Verification development for the LIF financial-statement service.

The definitions below are a shallow embedding of the repository Python
source, mainly:
  * `app/domin/fin/service/ratio_service.py`    (ratio engine, ratio persistence)
  * `app/domin/fin/service/fin_service.py`      (normalizer, deduplicator, pipeline)
  * `app/domin/fin/service/financial_statement_service.py` (freshness-gated pipeline)
  * `app/domin/fin/repository/fin_repository.py` (constructor arity)

Python floats are modelled as rationals (ℚ): every arithmetic operation the
code performs on amounts (add, subtract, divide, scale by 100, absolute
value) is exact on the values appearing in the claims.  Division is routed
through `pydiv`, which returns an `Except` error on a zero denominator,
mirroring the Python `ZeroDivisionError`; "the computation raises no division
fault" is then the statement that the `Except` value is `ok`.

Business years are 4-digit numeric strings in the source ("2023"); the code
always compares them via `int(...)` (and SQL `MAX` on 4-digit strings agrees
with integer order), so they are embedded directly as `Int`.  Display order
`ord` is likewise embedded as `Int` (the code always reads it through
`int(stmt.ord)`, and the spec declares it an integer).
-/

namespace LIF

/-- One row of the `fin_data` table holding the per-ratio columns of the
`INSERT` in `RatioService._save_ratios` (`debt_ratio`, ..., `eps_growth`).
Statement rows leave all of these at their column default 0. -/
structure RatioValues where
  debt_ratio : ℚ := 0
  current_ratio : ℚ := 0
  interest_coverage_ratio : ℚ := 0
  operating_profit_ratio : ℚ := 0
  net_profit_ratio : ℚ := 0
  roe : ℚ := 0
  roa : ℚ := 0
  debt_dependency : ℚ := 0
  cash_flow_debt_ratio : ℚ := 0
  sales_growth : ℚ := 0
  operating_profit_growth : ℚ := 0
  eps_growth : ℚ := 0
deriving DecidableEq, Repr

/-- A persisted `fin_data` row: the columns written by
`FinService._prepare_statement_data` / `RatioService._save_ratios`.
Columns a given row kind does not set keep their defaults (empty string / 0),
modelling the SQL column defaults. -/
structure FinRow where
  corp_code : String := ""
  corp_name : String := ""
  stock_code : String := ""
  rcept_no : String := ""
  reprt_code : String := ""
  bsns_year : Int := 0
  sj_div : String := ""
  sj_nm : String := ""
  account_nm : String := ""
  thstrm_nm : String := ""
  thstrm_amount : ℚ := 0
  frmtrm_nm : String := ""
  frmtrm_amount : ℚ := 0
  bfefrmtrm_nm : String := ""
  bfefrmtrm_amount : ℚ := 0
  ord : Int := 0
  currency : String := ""
  ratio : RatioValues := {}
deriving DecidableEq, Repr

/-- Guarded division: Python raises `ZeroDivisionError` on a zero
denominator, otherwise returns the exact quotient. -/
def pydiv (a b : ℚ) : Except String ℚ :=
  if b = 0 then Except.error "ZeroDivisionError" else Except.ok (a / b)

/-- Model of `RatioService._calculate_growth_rate`: 0 when the base period is 0,
otherwise `((current - previous) / abs(previous)) * 100`. -/
def calculate_growth_rate (current previous : ℚ) : Except String ℚ :=
  if previous = 0 then Except.ok 0
  else (pydiv (current - previous) |previous|).bind fun q => Except.ok (q * 100)

/-- Last-wins lookup into the statement rows: the Python dict comprehensions
`bs_data = {item["account_nm"]: item for item in statements if item["sj_div"] == "BS"}`
(and the `IS` twin) keep, for each account name, the **last** row of that
statement division in iteration order. -/
def div_lookup (stmts : List FinRow) (div name : String) : Option FinRow :=
  stmts.foldl
    (fun acc r => if r.sj_div = div ∧ r.account_nm = name then some r else acc) none

/-- Current-period amount of a looked-up row; 0 when the account is absent. -/
def amt : Option FinRow → ℚ
  | some r => r.thstrm_amount
  | none => 0

/-- Prior-period amount of a looked-up row; 0 when the account is absent. -/
def prev_amt : Option FinRow → ℚ
  | some r => r.frmtrm_amount
  | none => 0

/-- The dict built by `RatioService._calculate_ratios`: each key is present
(`some`) exactly when the source assigned `ratios[key]`. -/
structure RatiosDict where
  current_ratio : Option ℚ := none
  debt_ratio : Option ℚ := none
  roe : Option ℚ := none
  roa : Option ℚ := none
  operating_profit_ratio : Option ℚ := none
  net_profit_ratio : Option ℚ := none
  interest_coverage_ratio : Option ℚ := none
  debt_dependency : Option ℚ := none
  sales_growth : Option ℚ := none
  operating_profit_growth : Option ℚ := none
  eps_growth : Option ℚ := none
  cash_flow_debt_ratio : Option ℚ := none
deriving DecidableEq, Repr

/-- Block 1 of `_calculate_ratios`: 유동비율 (current ratio). -/
def ratio_current_block (stmts : List FinRow) : Except String (Option ℚ) :=
  match div_lookup stmts "BS" "유동자산", div_lookup stmts "BS" "유동부채" with
  | some a, some l =>
      if l.thstrm_amount ≠ 0 then
        (pydiv a.thstrm_amount l.thstrm_amount).bind fun q => Except.ok (some (q * 100))
      else Except.ok none
  | _, _ => Except.ok none

/-- Block 2: 부채비율 (debt ratio). -/
def ratio_debt_block (stmts : List FinRow) : Except String (Option ℚ) :=
  match div_lookup stmts "BS" "부채총계", div_lookup stmts "BS" "자본총계" with
  | some d, some e =>
      if e.thstrm_amount ≠ 0 then
        (pydiv d.thstrm_amount e.thstrm_amount).bind fun q => Except.ok (some (q * 100))
      else Except.ok none
  | _, _ => Except.ok none

/-- Block 3: ROE. -/
def ratio_roe_block (stmts : List FinRow) : Except String (Option ℚ) :=
  match div_lookup stmts "IS" "당기순이익", div_lookup stmts "BS" "자본총계" with
  | some n, some e =>
      if e.thstrm_amount ≠ 0 then
        (pydiv n.thstrm_amount e.thstrm_amount).bind fun q => Except.ok (some (q * 100))
      else Except.ok none
  | _, _ => Except.ok none

/-- Block 4: ROA. -/
def ratio_roa_block (stmts : List FinRow) : Except String (Option ℚ) :=
  match div_lookup stmts "IS" "당기순이익", div_lookup stmts "BS" "자산총계" with
  | some n, some a =>
      if a.thstrm_amount ≠ 0 then
        (pydiv n.thstrm_amount a.thstrm_amount).bind fun q => Except.ok (some (q * 100))
      else Except.ok none
  | _, _ => Except.ok none

/-- Block 5: 영업이익률 (operating profit ratio). -/
def ratio_op_profit_block (stmts : List FinRow) : Except String (Option ℚ) :=
  match div_lookup stmts "IS" "영업이익", div_lookup stmts "IS" "매출액" with
  | some o, some r =>
      if r.thstrm_amount ≠ 0 then
        (pydiv o.thstrm_amount r.thstrm_amount).bind fun q => Except.ok (some (q * 100))
      else Except.ok none
  | _, _ => Except.ok none

/-- Block 6: 순이익률 (net profit ratio). -/
def ratio_net_profit_block (stmts : List FinRow) : Except String (Option ℚ) :=
  match div_lookup stmts "IS" "당기순이익", div_lookup stmts "IS" "매출액" with
  | some n, some r =>
      if r.thstrm_amount ≠ 0 then
        (pydiv n.thstrm_amount r.thstrm_amount).bind fun q => Except.ok (some (q * 100))
      else Except.ok none
  | _, _ => Except.ok none

/-- Block 7: 이자보상배율 (interest coverage, no ×100). -/
def ratio_interest_block (stmts : List FinRow) : Except String (Option ℚ) :=
  match div_lookup stmts "IS" "영업이익", div_lookup stmts "IS" "이자비용" with
  | some o, some i =>
      if i.thstrm_amount ≠ 0 then
        (pydiv o.thstrm_amount i.thstrm_amount).bind fun q => Except.ok (some q)
      else Except.ok none
  | _, _ => Except.ok none

/-- Block 8: 부채의존도 (debt dependency = borrowings / total liabilities). -/
def ratio_debt_dep_block (stmts : List FinRow) : Except String (Option ℚ) :=
  match div_lookup stmts "BS" "부채총계", div_lookup stmts "BS" "차입금" with
  | some d, some b =>
      if d.thstrm_amount ≠ 0 then
        (pydiv b.thstrm_amount d.thstrm_amount).bind fun q => Except.ok (some (q * 100))
      else Except.ok none
  | _, _ => Except.ok none

/-- Block 9: 매출액 성장률 (sales growth). -/
def ratio_sales_growth_block (stmts : List FinRow) : Except String (Option ℚ) :=
  match div_lookup stmts "IS" "매출액" with
  | some r =>
      if r.frmtrm_amount ≠ 0 then
        (calculate_growth_rate r.thstrm_amount r.frmtrm_amount).bind fun g =>
          Except.ok (some g)
      else Except.ok none
  | none => Except.ok none

/-- Block 10: 영업이익 성장률 (operating profit growth). -/
def ratio_op_growth_block (stmts : List FinRow) : Except String (Option ℚ) :=
  match div_lookup stmts "IS" "영업이익" with
  | some r =>
      if r.frmtrm_amount ≠ 0 then
        (calculate_growth_rate r.thstrm_amount r.frmtrm_amount).bind fun g =>
          Except.ok (some g)
      else Except.ok none
  | none => Except.ok none

/-- Block 11: EPS 성장률 (eps growth, computed on net income). -/
def ratio_eps_growth_block (stmts : List FinRow) : Except String (Option ℚ) :=
  match div_lookup stmts "IS" "당기순이익" with
  | some r =>
      if r.frmtrm_amount ≠ 0 then
        (calculate_growth_rate r.thstrm_amount r.frmtrm_amount).bind fun g =>
          Except.ok (some g)
      else Except.ok none
  | none => Except.ok none

/-- Block 12: 현금흐름부채비율 (operating cash flow / total liabilities).
The source looks the cash-flow account up in the income-statement dict. -/
def ratio_cash_flow_block (stmts : List FinRow) : Except String (Option ℚ) :=
  match div_lookup stmts "IS" "영업활동현금흐름", div_lookup stmts "BS" "부채총계" with
  | some c, some d =>
      if d.thstrm_amount ≠ 0 then
        (pydiv c.thstrm_amount d.thstrm_amount).bind fun q => Except.ok (some (q * 100))
      else Except.ok none
  | _, _ => Except.ok none

/-- Model of `RatioService._calculate_ratios`: the blocks run in source order; the
first raised error (there is none, see `calculate_ratios_eq`) would
propagate. -/
def calculate_ratios (stmts : List FinRow) : Except String RatiosDict :=
  (ratio_current_block stmts).bind fun current_ratio =>
  (ratio_debt_block stmts).bind fun debt_ratio =>
  (ratio_roe_block stmts).bind fun roe =>
  (ratio_roa_block stmts).bind fun roa =>
  (ratio_op_profit_block stmts).bind fun operating_profit_ratio =>
  (ratio_net_profit_block stmts).bind fun net_profit_ratio =>
  (ratio_interest_block stmts).bind fun interest_coverage_ratio =>
  (ratio_debt_dep_block stmts).bind fun debt_dependency =>
  (ratio_sales_growth_block stmts).bind fun sales_growth =>
  (ratio_op_growth_block stmts).bind fun operating_profit_growth =>
  (ratio_eps_growth_block stmts).bind fun eps_growth =>
  (ratio_cash_flow_block stmts).bind fun cash_flow_debt_ratio =>
  Except.ok
    { current_ratio := current_ratio
      debt_ratio := debt_ratio
      roe := roe
      roa := roa
      operating_profit_ratio := operating_profit_ratio
      net_profit_ratio := net_profit_ratio
      interest_coverage_ratio := interest_coverage_ratio
      debt_dependency := debt_dependency
      sales_growth := sales_growth
      operating_profit_growth := operating_profit_growth
      eps_growth := eps_growth
      cash_flow_debt_ratio := cash_flow_debt_ratio }

/-- The value carried by a non-faulting block. -/
def block_val : Except String (Option ℚ) → Option ℚ
  | Except.ok v => v
  | Except.error _ => none

def ratio_current_val (stmts : List FinRow) : Option ℚ := block_val (ratio_current_block stmts)
def ratio_debt_val (stmts : List FinRow) : Option ℚ := block_val (ratio_debt_block stmts)
def ratio_roe_val (stmts : List FinRow) : Option ℚ := block_val (ratio_roe_block stmts)
def ratio_roa_val (stmts : List FinRow) : Option ℚ := block_val (ratio_roa_block stmts)
def ratio_op_profit_val (stmts : List FinRow) : Option ℚ := block_val (ratio_op_profit_block stmts)
def ratio_net_profit_val (stmts : List FinRow) : Option ℚ := block_val (ratio_net_profit_block stmts)
def ratio_interest_val (stmts : List FinRow) : Option ℚ := block_val (ratio_interest_block stmts)
def ratio_debt_dep_val (stmts : List FinRow) : Option ℚ := block_val (ratio_debt_dep_block stmts)
def ratio_sales_growth_val (stmts : List FinRow) : Option ℚ := block_val (ratio_sales_growth_block stmts)
def ratio_op_growth_val (stmts : List FinRow) : Option ℚ := block_val (ratio_op_growth_block stmts)
def ratio_eps_growth_val (stmts : List FinRow) : Option ℚ := block_val (ratio_eps_growth_block stmts)
def ratio_cash_flow_val (stmts : List FinRow) : Option ℚ := block_val (ratio_cash_flow_block stmts)

/-- The dict `_calculate_ratios` actually produces. -/
def ratios_of (stmts : List FinRow) : RatiosDict :=
  { current_ratio := ratio_current_val stmts
    debt_ratio := ratio_debt_val stmts
    roe := ratio_roe_val stmts
    roa := ratio_roa_val stmts
    operating_profit_ratio := ratio_op_profit_val stmts
    net_profit_ratio := ratio_net_profit_val stmts
    interest_coverage_ratio := ratio_interest_val stmts
    debt_dependency := ratio_debt_dep_val stmts
    sales_growth := ratio_sales_growth_val stmts
    operating_profit_growth := ratio_op_growth_val stmts
    eps_growth := ratio_eps_growth_val stmts
    cash_flow_debt_ratio := ratio_cash_flow_val stmts }

/-- The `RATIO` row built by `RatioService._save_ratios`: every ratio key is
read from the dict with `ratios.get(key, 0)`, so a missing key persists as
the value 0 (never null, never omitted). -/
def save_ratio_row (corp_code corp_name : String) (bsns_year : Int)
    (r : RatiosDict) : FinRow :=
  { corp_code := corp_code
    corp_name := corp_name
    bsns_year := bsns_year
    sj_div := "RATIO"
    sj_nm := "재무비율"
    ratio :=
      { debt_ratio := r.debt_ratio.getD 0
        current_ratio := r.current_ratio.getD 0
        interest_coverage_ratio := r.interest_coverage_ratio.getD 0
        operating_profit_ratio := r.operating_profit_ratio.getD 0
        net_profit_ratio := r.net_profit_ratio.getD 0
        roe := r.roe.getD 0
        roa := r.roa.getD 0
        debt_dependency := r.debt_dependency.getD 0
        cash_flow_debt_ratio := r.cash_flow_debt_ratio.getD 0
        sales_growth := r.sales_growth.getD 0
        operating_profit_growth := r.operating_profit_growth.getD 0
        eps_growth := r.eps_growth.getD 0 } }

/-- The `WHERE` clause of the delete in `_save_ratios`:
`corp_code = :corp_code AND bsns_year = :bsns_year AND sj_div = RATIO`. -/
def ratio_scope (corp_code : String) (bsns_year : Int) (r : FinRow) : Bool :=
  decide (r.corp_code = corp_code ∧ r.bsns_year = bsns_year ∧ r.sj_div = "RATIO")

/-- The delete statement `DELETE FROM fin_data WHERE ...` of `_save_ratios`. -/
def delete_ratio_rows (db : List FinRow) (corp_code : String) (bsns_year : Int) :
    List FinRow :=
  db.filter fun r => !(ratio_scope corp_code bsns_year r)

/-- A database session: the durable (committed) rows and the rows visible
inside the current transaction.  `commit` publishes `pending`; `rollback`
discards it. -/
structure Session where
  committed : List FinRow
  pending : List FinRow
deriving DecidableEq, Repr

def session_commit (sess : Session) : Session :=
  { committed := sess.pending, pending := sess.pending }

def session_rollback (sess : Session) : Session :=
  { committed := sess.committed, pending := sess.committed }

/-- Fault injection for the two statements `_save_ratios` executes. -/
inductive SaveFault where
  | ok
  | delete_fails
  | insert_fails
deriving DecidableEq, Repr

/-- Model of `RatioService._save_ratios`: delete the prior `RATIO` row for the
`(corp_code, bsns_year)` key, insert the freshly computed one, commit; any
failure rolls the session back and re-raises. -/
def save_ratios (sess : Session) (fault : SaveFault) (corp_code corp_name : String)
    (bsns_year : Int) (r : RatiosDict) : Session × Except String Unit :=
  match fault with
  | SaveFault.delete_fails =>
      (session_rollback sess, Except.error "재무비율 저장 중 오류 발생")
  | SaveFault.insert_fails =>
      let s1 : Session :=
        { sess with pending := delete_ratio_rows sess.pending corp_code bsns_year }
      (session_rollback s1, Except.error "재무비율 저장 중 오류 발생")
  | SaveFault.ok =>
      let s1 : Session :=
        { sess with pending := delete_ratio_rows sess.pending corp_code bsns_year }
      let s2 : Session :=
        { s1 with pending := s1.pending ++ [save_ratio_row corp_code corp_name bsns_year r] }
      (session_commit s2, Except.ok ())

/-- C2 in the fin_service deduplicator needs raw statements; defined later.
Here: the field-name list of the ratio columns written by the `INSERT` in
`RatioService._save_ratios`. -/
def ratio_field_names : List String :=
  ["debt_ratio", "current_ratio", "interest_coverage_ratio",
   "operating_profit_ratio", "net_profit_ratio", "roe", "roa",
   "debt_dependency", "cash_flow_debt_ratio",
   "sales_growth", "operating_profit_growth", "eps_growth"]

/-- Model of `RawFinancialStatement` (the pydantic schema file is not in the tree;
fields modelled from the RawLineItem of the spec and from how the services read
them).  `ord` is the display order; the deduplicator always compares it via
`int(stmt.ord)`, so it is embedded as `Int`; `bsns_year` likewise. -/
structure RawStatement where
  rcept_no : String := ""
  reprt_code : String := ""
  bsns_year : Int := 0
  sj_div : String := ""
  sj_nm : String := ""
  account_nm : String := ""
  thstrm_nm : String := ""
  thstrm_amount : Option String := none
  frmtrm_nm : String := ""
  frmtrm_amount : Option String := none
  bfefrmtrm_nm : String := ""
  bfefrmtrm_amount : Option String := none
  ord : Int := 0
  currency : String := ""
deriving DecidableEq, Repr

/-- The deduplication key `(stmt.account_nm, stmt.sj_nm)`. -/
abbrev DKey := String × String

def dkey (s : RawStatement) : DKey := (s.account_nm, s.sj_nm)

/-- First-match lookup in the insertion-ordered dict model. -/
def map_lookup : List (DKey × RawStatement) → DKey → Option RawStatement
  | [], _ => none
  | (k, v) :: rest, k2 => if k = k2 then some v else map_lookup rest k2

/-- Python-dict assignment `d[k] = v`: replaces the value in place when the
key exists (keeping its position) and appends at the end otherwise. -/
def map_upsert : List (DKey × RawStatement) → DKey → RawStatement →
    List (DKey × RawStatement)
  | [], k, v => [(k, v)]
  | (k1, v1) :: rest, k, v =>
      if k1 = k then (k, v) :: rest else (k1, v1) :: map_upsert rest k v

/-- The loop of `FinService._deduplicate_statements`:
`if key not in latest_statements or int(stmt.ord) < int(latest_statements[key].ord):
   latest_statements[key] = stmt`. -/
def dedup_go : List (DKey × RawStatement) → List RawStatement →
    List (DKey × RawStatement)
  | m, [] => m
  | m, s :: rest =>
    match map_lookup m (dkey s) with
    | none => dedup_go (map_upsert m (dkey s) s) rest
    | some t =>
        if s.ord < t.ord then dedup_go (map_upsert m (dkey s) s) rest
        else dedup_go m rest

/-- Model of `FinService._deduplicate_statements` (the separated data processor used
by `FinancialStatementService` implements the same spec-described loop):
returns `list(latest_statements.values())`. -/
def deduplicate_statements (stmts : List RawStatement) : List RawStatement :=
  (dedup_go [] stmts).map Prod.snd

/-- Combine a best-so-far row with one more row of the same key: replace only
on a strictly smaller display order. -/
def pick (acc : Option RawStatement) (s : RawStatement) : Option RawStatement :=
  match acc with
  | none => some s
  | some t => if s.ord < t.ord then some s else some t

/-- The surviving row among a stream of same-key rows. -/
def pick_min (acc : Option RawStatement) : List RawStatement → Option RawStatement
  | [] => acc
  | s :: rest => pick_min (pick acc s) rest

/-- Invariant: every stored entry is keyed by the key of its own row. -/
def entries_keyed (m : List (DKey × RawStatement)) : Prop :=
  ∀ p ∈ m, dkey p.2 = p.1

/-- Digit-string value; fails on any non-digit character. -/
def digits_val (cs : List Char) : Option Nat :=
  cs.foldl
    (fun acc c =>
      match acc with
      | none => none
      | some n => if c.isDigit then some (n * 10 + (c.toNat - 48)) else none)
    (some 0)

/-- Decimal parser for the numeric amount strings of the upstream API
(optional leading minus, digits, optional fractional part), the shapes
`float(...)` receives after comma-stripping. -/
def parse_decimal (s : String) : Option ℚ :=
  let cs := s.data
  let signBody : ℚ × List Char :=
    match cs with
    | '-' :: rest => (-1, rest)
    | _ => (1, cs)
  let sign := signBody.1
  let body := signBody.2
  if body.isEmpty then none
  else
    let intPart := body.takeWhile (fun c => c ≠ '.')
    let restPart := body.dropWhile (fun c => c ≠ '.')
    match restPart with
    | [] => (digits_val intPart).map (fun n => sign * (n : ℚ))
    | _ :: fracPart =>
        if fracPart.isEmpty ∨ fracPart.any (fun c => c = '.') then none
        else
          match digits_val intPart, digits_val fracPart with
          | some n, some f =>
              some (sign * ((n : ℚ) + (f : ℚ) / (10 : ℚ) ^ fracPart.length))
          | _, _ => none

/-- The comma strip `amount_str.replace(",", "")`. -/
def strip_commas (s : String) : String :=
  String.mk (s.data.filter (fun c => c ≠ ','))

/-- Model of `FinService._convert_amount`: falsy input (None / empty) and parse
failures degrade to 0.0, never an error. -/
def convert_amount (amount_str : Option String) : ℚ :=
  match amount_str with
  | none => 0
  | some s => if s = "" then 0 else (parse_decimal (strip_commas s)).getD 0

/-- Company info resolved by the company-info lookup. -/
structure CompanyInfo where
  corp_code : String
  corp_name : String
  stock_code : String
  modify_date : String := ""
deriving DecidableEq, Repr

/-- Model of `FinService._prepare_statement_data`: merge company info with the raw
statement, converting the three period amounts. -/
def prepare_statement_data (ci : CompanyInfo) (s : RawStatement) : FinRow :=
  { corp_code := ci.corp_code
    corp_name := ci.corp_name
    stock_code := ci.stock_code
    rcept_no := s.rcept_no
    reprt_code := s.reprt_code
    bsns_year := s.bsns_year
    sj_div := s.sj_div
    sj_nm := s.sj_nm
    account_nm := s.account_nm
    thstrm_nm := s.thstrm_nm
    thstrm_amount := convert_amount s.thstrm_amount
    frmtrm_nm := s.frmtrm_nm
    frmtrm_amount := convert_amount s.frmtrm_amount
    bfefrmtrm_nm := s.bfefrmtrm_nm
    bfefrmtrm_amount := convert_amount s.bfefrmtrm_amount
    ord := s.ord
    currency := s.currency }

/-- Insertion into a sorted list (model of a SQL `ORDER BY`). -/
def insert_le {α : Type} (le : α → α → Bool) (x : α) : List α → List α
  | [] => [x]
  | y :: ys => if le x y then x :: y :: ys else y :: insert_le le x ys

/-- Stable insertion sort by the given total preorder. -/
def sort_by {α : Type} (le : α → α → Bool) (l : List α) : List α :=
  l.foldr (insert_le le) []

/-- The sort key `ORDER BY bsns_year DESC, sj_div, ord`. -/
def cached_le (a b : FinRow) : Bool :=
  if a.bsns_year ≠ b.bsns_year then decide (b.bsns_year < a.bsns_year)
  else if a.sj_div ≠ b.sj_div then decide (a.sj_div < b.sj_div)
  else decide (a.ord ≤ b.ord)

/-- The columns selected by the data query of both pipelines. -/
structure DataRow where
  bsns_year : Int
  sj_div : String
  sj_nm : String
  account_nm : String
  thstrm_amount : ℚ
  frmtrm_amount : ℚ
  bfefrmtrm_amount : ℚ
deriving DecidableEq, Repr

def project_row (r : FinRow) : DataRow :=
  { bsns_year := r.bsns_year, sj_div := r.sj_div, sj_nm := r.sj_nm,
    account_nm := r.account_nm, thstrm_amount := r.thstrm_amount,
    frmtrm_amount := r.frmtrm_amount, bfefrmtrm_amount := r.bfefrmtrm_amount }

/-- The query `SELECT ... FROM fin_data WHERE corp_name = :company_name AND sj_div != RATIO
ORDER BY bsns_year DESC, sj_div, ord`. -/
def select_non_ratio (db : List FinRow) (name : String) : List DataRow :=
  (sort_by cached_le
    (db.filter fun r => decide (r.corp_name = name ∧ r.sj_div ≠ "RATIO"))).map
    project_row

/-- The query `SELECT MAX(bsns_year) FROM fin_data WHERE corp_name = :company_name`
(`NULL`, i.e. `none`, when the company has no rows). -/
def latest_year_of (db : List FinRow) (name : String) : Option Int :=
  (db.filter fun r => decide (r.corp_name = name)).foldl
    (fun acc r =>
      match acc with
      | none => some r.bsns_year
      | some y => some (max y r.bsns_year)) none

/-- The sort key `ORDER BY sj_div, ord` of the ratio-input query. -/
def ratio_select_le (a b : FinRow) : Bool :=
  if a.sj_div ≠ b.sj_div then decide (a.sj_div < b.sj_div) else decide (a.ord ≤ b.ord)

/-- The ratio-input query of `calculate_and_save_ratios`:
`WHERE corp_code = ... AND bsns_year = ... AND sj_div IN (BS, IS)
ORDER BY sj_div, ord`. -/
def ratio_select (db : List FinRow) (corp_code : String) (bsns_year : Int) :
    List FinRow :=
  sort_by ratio_select_le (db.filter fun r =>
    decide (r.corp_code = corp_code ∧ r.bsns_year = bsns_year ∧
      (r.sj_div = "BS" ∨ r.sj_div = "IS")))

/-- Durable write statements issued against the store. -/
inductive Eff where
  | delete_statements (corp_code rcept_no : String) (year : Option Int)
  | insert_statements (rows : List FinRow)
  | delete_ratios (corp_code : String) (bsns_year : Int)
  | insert_ratio (row : FinRow)
deriving DecidableEq, Repr

/-- The uniform result shape returned to the caller. -/
structure PipeResult where
  status : String
  message : String
  data : List DataRow := []
deriving DecidableEq, Repr

/-- Model of `RatioService.calculate_and_save_ratios`: query the BS/IS rows for the
`(corp_code, bsns_year)` key; when none exist return the empty dict without
saving; otherwise compute the ratios and run the delete-then-insert save. -/
def calculate_and_save_ratios (sess : Session) (fault : SaveFault)
    (corp_code corp_name : String) (bsns_year : Int) :
    Session × List Eff × Except String (Option RatiosDict) :=
  if ratio_select sess.pending corp_code bsns_year = [] then
    (sess, [], Except.ok none)
  else
    match calculate_ratios (ratio_select sess.pending corp_code bsns_year) with
    | Except.error e => (sess, [], Except.error e)
    | Except.ok r =>
        match save_ratios sess fault corp_code corp_name bsns_year r with
        | (s1, Except.ok _) =>
            (s1, [Eff.delete_ratios corp_code bsns_year,
              Eff.insert_ratio (save_ratio_row corp_code corp_name bsns_year r)],
              Except.ok (some r))
        | (s1, Except.error e) => (s1, [], Except.error e)

/-- Modelled from the spec: `FinRepository.delete_financial_statements` is
missing from the tree (only its callers survive).  Per §4.5 it deletes the
stale rows of the `(company, period)` scope before the re-insert: every row
of the company when no year is pinned, only that business year otherwise. -/
def delete_statements_scope (db : List FinRow) (corp_code : String)
    (year : Option Int) : List FinRow :=
  db.filter fun r =>
    match year with
    | none => decide (¬ r.corp_code = corp_code)
    | some y => decide (¬ (r.corp_code = corp_code ∧ r.bsns_year = y))

/-- Modelled from the spec: `FinRepository.save_financial_statements` inserts
the prepared batch (§4.5 delete-then-insert). -/
def save_statements (db : List FinRow) (rows : List FinRow) : List FinRow :=
  db ++ rows

/-- The freshness comparison of `FinancialStatementService`:
`if year is None: ... if latest_year and current_year <= int(latest_year)`. -/
def freshness_cached (year : Option Int) (latest : Option Int)
    (current_year : Int) : Bool :=
  match year, latest with
  | none, some ly => decide (current_year ≤ ly)
  | _, _ => false

/-- Steps 7-8 of the write path: delete the stale statement scope, insert the
prepared batch, commit (one logical transaction per §4.5). -/
def stmt_save_session (ci : CompanyInfo) (year : Option Int)
    (deduped : List RawStatement) (sess : Session) : Session :=
  session_commit
    { sess with pending :=
        (save_statements (delete_statements_scope sess.pending ci.corp_code year)
          (deduped.map (prepare_statement_data ci))) }

/-- Steps 5-10 of `FinancialStatementService.fetch_and_save_financial_data`:
dedup, replace the statement rows, recompute and save the ratios, return the
saved rows.  The raised error of a failed ratio save is caught by the
enclosing handler, which returns the error-status result. -/
def fs_write_path (name : String) (year : Option Int) (ci : CompanyInfo)
    (stmts : List RawStatement) (fault : SaveFault) (sess : Session) :
    PipeResult × List Eff × Session :=
  match deduplicate_statements stmts with
  | [] =>
      ({ status := "success",
         message := name ++ "의 재무제표 데이터가 성공적으로 저장되었습니다.",
         data := select_non_ratio (session_commit sess).pending name },
       [Eff.insert_statements []], session_commit sess)
  | d0 :: ds =>
      match calculate_and_save_ratios (stmt_save_session ci year (d0 :: ds) sess)
          fault ci.corp_code ci.corp_name d0.bsns_year with
      | (sess3, effs2, Except.error e) =>
          ({ status := "error", message := e, data := [] },
           [Eff.delete_statements ci.corp_code d0.rcept_no year,
            Eff.insert_statements ((d0 :: ds).map (prepare_statement_data ci))] ++ effs2,
           sess3)
      | (sess3, effs2, Except.ok _) =>
          ({ status := "success",
             message := name ++ "의 재무제표 데이터가 성공적으로 저장되었습니다.",
             data := select_non_ratio sess3.pending name },
           [Eff.delete_statements ci.corp_code d0.rcept_no year,
            Eff.insert_statements ((d0 :: ds).map (prepare_statement_data ci))] ++ effs2,
           sess3)

/-- Model of `FinancialStatementService.fetch_and_save_financial_data`, with the
collaborators passed explicitly: the resolved company info and the fetched
raw statements (the DART transport is a black-box data source). -/
def fs_fetch_and_save (name : String) (year : Option Int) (ci : CompanyInfo)
    (stmts : List RawStatement) (fault : SaveFault) (sess : Session) :
    PipeResult × List Eff × Session :=
  match stmts with
  | [] =>
      ({ status := "error", message := "재무제표 데이터를 찾을 수 없습니다.",
         data := [] }, [], sess)
  | s0 :: rest =>
      if freshness_cached year (latest_year_of sess.pending name) s0.bsns_year then
        ({ status := "success",
           message := name ++ "의 재무제표 데이터가 이미 존재합니다.",
           data := select_non_ratio sess.pending name }, [], sess)
      else fs_write_path name year ci (s0 :: rest) fault sess

/-- One raw item of a DART response list, before the service enriches it. -/
structure DartItem where
  rcept_no : String := ""
  reprt_code : String := ""
  bsns_year : Int := 0
  sj_div : String := ""
  sj_nm : String := ""
  account_nm : String := ""
  thstrm_amount : Option String := none
  frmtrm_amount : Option String := none
  bfefrmtrm_amount : Option String := none
  ord : Int := 0
  currency : String := ""
deriving DecidableEq, Repr

def year_label (y : Int) : String := toString y ++ "년"

/-- BS/IS enrichment in `_fetch_financial_statements_from_api`: derive the
three comparative-period labels from the business year. -/
def enrich_bs_is (it : DartItem) : RawStatement :=
  { rcept_no := it.rcept_no
    reprt_code := it.reprt_code
    bsns_year := it.bsns_year
    sj_div := it.sj_div
    sj_nm := it.sj_nm
    account_nm := it.account_nm
    thstrm_nm := year_label it.bsns_year
    thstrm_amount := it.thstrm_amount
    frmtrm_nm := year_label (it.bsns_year - 1)
    frmtrm_amount := it.frmtrm_amount
    bfefrmtrm_nm := year_label (it.bsns_year - 2)
    bfefrmtrm_amount := it.bfefrmtrm_amount
    ord := it.ord
    currency := it.currency }

/-- CF enrichment: the cash-flow endpoint lacks statement-division metadata,
so the service injects `sj_div = "CF"` and the division name. -/
def enrich_cf (it : DartItem) : RawStatement :=
  { enrich_bs_is it with sj_div := "CF", sj_nm := "현금흐름표" }

/-- One upstream HTTP response: transport status, DART payload status and
the item list. -/
structure HttpResponse where
  http_status : Nat
  api_status : String
  items : List DartItem
deriving DecidableEq, Repr

/-- Model of `FinService._fetch_financial_statements_from_api`: items are collected
only under `response.status == 200` and payload status `"000"`; a non-success
response contributes nothing (no exception is raised). -/
def fetch_statements_from_api (bsis cf : HttpResponse) : List RawStatement :=
  (if bsis.http_status = 200 ∧ bsis.api_status = "000" then
      (bsis.items.filter fun it => decide (it.sj_div = "BS" ∨ it.sj_div = "IS")).map
        enrich_bs_is
    else [])
  ++ (if cf.http_status = 200 ∧ cf.api_status = "000" then cf.items.map enrich_cf
    else [])

/-- Model of `FinService.fetch_and_save_financial_data`: count-based cache check, then
fetch / dedup / replace / ratio save / return, with every raised error
converted to the error-status result by the enclosing handler. -/
def fin_fetch_and_save (name : String) (ci : CompanyInfo) (bsis cf : HttpResponse)
    (fault : SaveFault) (sess : Session) : PipeResult × List Eff × Session :=
  if 0 < (sess.pending.filter fun r => decide (r.corp_name = name)).length then
    ({ status := "success",
       message := name ++ "의 재무제표 데이터가 이미 존재합니다.",
       data := select_non_ratio sess.pending name }, [], sess)
  else
    match deduplicate_statements (fetch_statements_from_api bsis cf) with
    | [] =>
        ({ status := "success",
           message := name ++ "의 재무제표 데이터가 성공적으로 저장되었습니다.",
           data := select_non_ratio (session_commit sess).pending name },
         [Eff.insert_statements []], session_commit sess)
    | d0 :: ds =>
        match calculate_and_save_ratios (stmt_save_session ci none (d0 :: ds) sess)
            fault ci.corp_code ci.corp_name d0.bsns_year with
        | (sess3, effs2, Except.error e) =>
            ({ status := "error", message := e, data := [] },
             [Eff.delete_statements ci.corp_code d0.rcept_no none,
              Eff.insert_statements ((d0 :: ds).map (prepare_statement_data ci))] ++ effs2,
             sess3)
        | (sess3, effs2, Except.ok _) =>
            ({ status := "success",
               message := name ++ "의 재무제표 데이터가 성공적으로 저장되었습니다.",
               data := select_non_ratio sess3.pending name },
             [Eff.delete_statements ci.corp_code d0.rcept_no none,
              Eff.insert_statements ((d0 :: ds).map (prepare_statement_data ci))] ++ effs2,
             sess3)

/-- An opaque database-session handle passed to the constructors. -/
structure DbSession where
  session_id : Nat := 0
deriving DecidableEq, Repr

/-- Outcome of running a Python initializer. -/
inductive PyInitResult (α : Type) where
  | ok (value : α)
  | type_error (msg : String)
  | value_error (msg : String)
deriving DecidableEq, Repr

structure FinRepositoryObj where
  api_key : String
deriving DecidableEq, Repr

/-- Arity of `FinRepository.__init__(self)`: it declares no parameters besides `self`. -/
def fin_repository_param_count : Nat := 0

/-- Calling `FinRepository(*args)`: Python raises `TypeError` when the
positional-argument count differs from the declared parameter count;
otherwise the body runs and raises `ValueError` when `DART_API_KEY` is
unset in the environment. -/
def fin_repository_new (args : List DbSession) (env_api_key : Option String) :
    PyInitResult FinRepositoryObj :=
  if args.length ≠ fin_repository_param_count then
    PyInitResult.type_error
      "FinRepository.__init__ takes 1 positional argument but 2 were given"
  else
    match env_api_key with
    | none => PyInitResult.value_error "DART API 키가 필요합니다."
    | some k => PyInitResult.ok { api_key := k }

structure RatioServiceObj where
  db_session : DbSession
  repository : FinRepositoryObj
deriving DecidableEq, Repr

/-- Model of `RatioService.__init__`: stores the session, then runs
`FinRepository(db_session)`; an exception there propagates. -/
def ratio_service_new (db_session : DbSession) (env_api_key : Option String) :
    PyInitResult RatioServiceObj :=
  match fin_repository_new [db_session] env_api_key with
  | PyInitResult.ok repo =>
      PyInitResult.ok { db_session := db_session, repository := repo }
  | PyInitResult.type_error m => PyInitResult.type_error m
  | PyInitResult.value_error m => PyInitResult.value_error m

structure FinServiceObj where
  db_session : DbSession
  repository : FinRepositoryObj
  ratio_service : RatioServiceObj
  api_key : String
deriving DecidableEq, Repr

/-- Model of `FinService.__init__`: stores the session, constructs
`FinRepository(db_session)`, then `RatioService(db_session)`, then checks
`DART_API_KEY`; the first raised exception propagates. -/
def fin_service_new (db_session : DbSession) (env_api_key : Option String) :
    PyInitResult FinServiceObj :=
  match fin_repository_new [db_session] env_api_key with
  | PyInitResult.type_error m => PyInitResult.type_error m
  | PyInitResult.value_error m => PyInitResult.value_error m
  | PyInitResult.ok repo =>
      match ratio_service_new db_session env_api_key with
      | PyInitResult.type_error m => PyInitResult.type_error m
      | PyInitResult.value_error m => PyInitResult.value_error m
      | PyInitResult.ok rs =>
          match env_api_key with
          | none => PyInitResult.value_error "DART API 키가 필요합니다."
          | some k =>
              PyInitResult.ok
                { db_session := db_session
                  repository := repo
                  ratio_service := rs
                  api_key := k }

/-- Concrete fixtures used by the witnesses. -/
def c4_row : FinRow :=
  { corp_code := "001", corp_name := "에이컴", bsns_year := 2023, sj_div := "BS",
    sj_nm := "재무상태표", account_nm := "자산총계", thstrm_amount := 1000, ord := 1 }

def c4_sess : Session := { committed := [c4_row], pending := [c4_row] }

def c4_stmt : RawStatement :=
  { rcept_no := "r1", bsns_year := 2023, sj_div := "BS", sj_nm := "재무상태표",
    account_nm := "자산총계", thstrm_amount := some "1,000", ord := 1 }

def c4_ci : CompanyInfo :=
  { corp_code := "001", corp_name := "에이컴", stock_code := "" }

def c6_sess : Session := { committed := [], pending := [] }

def c7_item : DartItem :=
  { rcept_no := "r9", sj_div := "BS", sj_nm := "재무상태표",
    account_nm := "자산총계", bsns_year := 2023, thstrm_amount := some "1,000",
    ord := 1 }

def c7_bsis : HttpResponse :=
  { http_status := 500, api_status := "000", items := [c7_item] }

def c7_cf : HttpResponse := { http_status := 500, api_status := "000", items := [] }

theorem calculate_growth_rate_ok (c p : ℚ) :
    calculate_growth_rate c p =
      Except.ok (if p = 0 then 0 else ((c - p) / |p|) * 100) := by
  unfold calculate_growth_rate pydiv
  by_cases h : p = 0
  · simp [h]
  · simp [h, abs_eq_zero, Except.bind]

theorem ratio_current_block_eq (stmts : List FinRow) :
    ratio_current_block stmts = Except.ok (ratio_current_val stmts) := by
  unfold ratio_current_val block_val ratio_current_block
  cases div_lookup stmts "BS" "유동자산" <;> cases div_lookup stmts "BS" "유동부채" <;>
    try rfl
  rename_i l
  by_cases h : l.thstrm_amount = 0
  · simp [h]
  · simp [h, pydiv, Except.bind]

theorem ratio_debt_block_eq (stmts : List FinRow) :
    ratio_debt_block stmts = Except.ok (ratio_debt_val stmts) := by
  unfold ratio_debt_val block_val ratio_debt_block
  cases div_lookup stmts "BS" "부채총계" <;> cases div_lookup stmts "BS" "자본총계" <;>
    try rfl
  rename_i e
  by_cases h : e.thstrm_amount = 0
  · simp [h]
  · simp [h, pydiv, Except.bind]

theorem ratio_roe_block_eq (stmts : List FinRow) :
    ratio_roe_block stmts = Except.ok (ratio_roe_val stmts) := by
  unfold ratio_roe_val block_val ratio_roe_block
  cases div_lookup stmts "IS" "당기순이익" <;> cases div_lookup stmts "BS" "자본총계" <;>
    try rfl
  rename_i e
  by_cases h : e.thstrm_amount = 0
  · simp [h]
  · simp [h, pydiv, Except.bind]

theorem ratio_roa_block_eq (stmts : List FinRow) :
    ratio_roa_block stmts = Except.ok (ratio_roa_val stmts) := by
  unfold ratio_roa_val block_val ratio_roa_block
  cases div_lookup stmts "IS" "당기순이익" <;> cases div_lookup stmts "BS" "자산총계" <;>
    try rfl
  rename_i a
  by_cases h : a.thstrm_amount = 0
  · simp [h]
  · simp [h, pydiv, Except.bind]

theorem ratio_op_profit_block_eq (stmts : List FinRow) :
    ratio_op_profit_block stmts = Except.ok (ratio_op_profit_val stmts) := by
  unfold ratio_op_profit_val block_val ratio_op_profit_block
  cases div_lookup stmts "IS" "영업이익" <;> cases div_lookup stmts "IS" "매출액" <;>
    try rfl
  rename_i r
  by_cases h : r.thstrm_amount = 0
  · simp [h]
  · simp [h, pydiv, Except.bind]

theorem ratio_net_profit_block_eq (stmts : List FinRow) :
    ratio_net_profit_block stmts = Except.ok (ratio_net_profit_val stmts) := by
  unfold ratio_net_profit_val block_val ratio_net_profit_block
  cases div_lookup stmts "IS" "당기순이익" <;> cases div_lookup stmts "IS" "매출액" <;>
    try rfl
  rename_i r
  by_cases h : r.thstrm_amount = 0
  · simp [h]
  · simp [h, pydiv, Except.bind]

theorem ratio_interest_block_eq (stmts : List FinRow) :
    ratio_interest_block stmts = Except.ok (ratio_interest_val stmts) := by
  unfold ratio_interest_val block_val ratio_interest_block
  cases div_lookup stmts "IS" "영업이익" <;> cases div_lookup stmts "IS" "이자비용" <;>
    try rfl
  rename_i i
  by_cases h : i.thstrm_amount = 0
  · simp [h]
  · simp [h, pydiv, Except.bind]

theorem ratio_debt_dep_block_eq (stmts : List FinRow) :
    ratio_debt_dep_block stmts = Except.ok (ratio_debt_dep_val stmts) := by
  unfold ratio_debt_dep_val block_val ratio_debt_dep_block
  cases div_lookup stmts "BS" "부채총계" <;> cases div_lookup stmts "BS" "차입금" <;>
    try rfl
  rename_i d b
  by_cases h : d.thstrm_amount = 0
  · simp [h]
  · simp [h, pydiv, Except.bind]

theorem ratio_sales_growth_block_eq (stmts : List FinRow) :
    ratio_sales_growth_block stmts = Except.ok (ratio_sales_growth_val stmts) := by
  unfold ratio_sales_growth_val block_val ratio_sales_growth_block
  cases div_lookup stmts "IS" "매출액" <;> try rfl
  rename_i r
  by_cases h : r.frmtrm_amount = 0
  · simp [h]
  · simp [h, calculate_growth_rate_ok, Except.bind]

theorem ratio_op_growth_block_eq (stmts : List FinRow) :
    ratio_op_growth_block stmts = Except.ok (ratio_op_growth_val stmts) := by
  unfold ratio_op_growth_val block_val ratio_op_growth_block
  cases div_lookup stmts "IS" "영업이익" <;> try rfl
  rename_i r
  by_cases h : r.frmtrm_amount = 0
  · simp [h]
  · simp [h, calculate_growth_rate_ok, Except.bind]

theorem ratio_eps_growth_block_eq (stmts : List FinRow) :
    ratio_eps_growth_block stmts = Except.ok (ratio_eps_growth_val stmts) := by
  unfold ratio_eps_growth_val block_val ratio_eps_growth_block
  cases div_lookup stmts "IS" "당기순이익" <;> try rfl
  rename_i r
  by_cases h : r.frmtrm_amount = 0
  · simp [h]
  · simp [h, calculate_growth_rate_ok, Except.bind]

theorem ratio_cash_flow_block_eq (stmts : List FinRow) :
    ratio_cash_flow_block stmts = Except.ok (ratio_cash_flow_val stmts) := by
  unfold ratio_cash_flow_val block_val ratio_cash_flow_block
  cases div_lookup stmts "IS" "영업활동현금흐름" <;> cases div_lookup stmts "BS" "부채총계" <;>
    try rfl
  rename_i d
  by_cases h : d.thstrm_amount = 0
  · simp [h]
  · simp [h, pydiv, Except.bind]

/-- The ratio engine never raises: every division site is guarded by a
nonzero-denominator check, so `_calculate_ratios` always returns the dict
`ratios_of stmts`. -/
theorem calculate_ratios_eq (stmts : List FinRow) :
    calculate_ratios stmts = Except.ok (ratios_of stmts) := by
  unfold calculate_ratios
  rw [ratio_current_block_eq, ratio_debt_block_eq, ratio_roe_block_eq,
    ratio_roa_block_eq, ratio_op_profit_block_eq, ratio_net_profit_block_eq,
    ratio_interest_block_eq, ratio_debt_dep_block_eq, ratio_sales_growth_block_eq,
    ratio_op_growth_block_eq, ratio_eps_growth_block_eq, ratio_cash_flow_block_eq]
  rfl

theorem ratio_current_val_none (stmts : List FinRow)
    (h : div_lookup stmts "BS" "유동자산" = none ∨
      amt (div_lookup stmts "BS" "유동부채") = 0) :
    ratio_current_val stmts = none := by
  unfold ratio_current_val block_val ratio_current_block
  rcases h with h | h
  · rw [h]
  · cases hd : div_lookup stmts "BS" "유동부채" with
    | none => cases div_lookup stmts "BS" "유동자산" <;> rfl
    | some r =>
      rw [hd] at h
      simp only [amt] at h
      cases div_lookup stmts "BS" "유동자산" with
      | none => rfl
      | some a => simp [h]

theorem ratio_debt_val_none (stmts : List FinRow)
    (h : div_lookup stmts "BS" "부채총계" = none ∨
      amt (div_lookup stmts "BS" "자본총계") = 0) :
    ratio_debt_val stmts = none := by
  unfold ratio_debt_val block_val ratio_debt_block
  rcases h with h | h
  · rw [h]
  · cases hd : div_lookup stmts "BS" "자본총계" with
    | none => cases div_lookup stmts "BS" "부채총계" <;> rfl
    | some r =>
      rw [hd] at h
      simp only [amt] at h
      cases div_lookup stmts "BS" "부채총계" with
      | none => rfl
      | some d => simp [h]

theorem ratio_roe_val_none (stmts : List FinRow)
    (h : div_lookup stmts "IS" "당기순이익" = none ∨
      amt (div_lookup stmts "BS" "자본총계") = 0) :
    ratio_roe_val stmts = none := by
  unfold ratio_roe_val block_val ratio_roe_block
  rcases h with h | h
  · rw [h]
  · cases hd : div_lookup stmts "BS" "자본총계" with
    | none => cases div_lookup stmts "IS" "당기순이익" <;> rfl
    | some r =>
      rw [hd] at h
      simp only [amt] at h
      cases div_lookup stmts "IS" "당기순이익" with
      | none => rfl
      | some n => simp [h]

theorem ratio_roa_val_none (stmts : List FinRow)
    (h : div_lookup stmts "IS" "당기순이익" = none ∨
      amt (div_lookup stmts "BS" "자산총계") = 0) :
    ratio_roa_val stmts = none := by
  unfold ratio_roa_val block_val ratio_roa_block
  rcases h with h | h
  · rw [h]
  · cases hd : div_lookup stmts "BS" "자산총계" with
    | none => cases div_lookup stmts "IS" "당기순이익" <;> rfl
    | some r =>
      rw [hd] at h
      simp only [amt] at h
      cases div_lookup stmts "IS" "당기순이익" with
      | none => rfl
      | some n => simp [h]

theorem ratio_op_profit_val_none (stmts : List FinRow)
    (h : div_lookup stmts "IS" "영업이익" = none ∨
      amt (div_lookup stmts "IS" "매출액") = 0) :
    ratio_op_profit_val stmts = none := by
  unfold ratio_op_profit_val block_val ratio_op_profit_block
  rcases h with h | h
  · rw [h]
  · cases hd : div_lookup stmts "IS" "매출액" with
    | none => cases div_lookup stmts "IS" "영업이익" <;> rfl
    | some r =>
      rw [hd] at h
      simp only [amt] at h
      cases div_lookup stmts "IS" "영업이익" with
      | none => rfl
      | some o => simp [h]

theorem ratio_net_profit_val_none (stmts : List FinRow)
    (h : div_lookup stmts "IS" "당기순이익" = none ∨
      amt (div_lookup stmts "IS" "매출액") = 0) :
    ratio_net_profit_val stmts = none := by
  unfold ratio_net_profit_val block_val ratio_net_profit_block
  rcases h with h | h
  · rw [h]
  · cases hd : div_lookup stmts "IS" "매출액" with
    | none => cases div_lookup stmts "IS" "당기순이익" <;> rfl
    | some r =>
      rw [hd] at h
      simp only [amt] at h
      cases div_lookup stmts "IS" "당기순이익" with
      | none => rfl
      | some n => simp [h]

theorem ratio_interest_val_none (stmts : List FinRow)
    (h : div_lookup stmts "IS" "영업이익" = none ∨
      amt (div_lookup stmts "IS" "이자비용") = 0) :
    ratio_interest_val stmts = none := by
  unfold ratio_interest_val block_val ratio_interest_block
  rcases h with h | h
  · rw [h]
  · cases hd : div_lookup stmts "IS" "이자비용" with
    | none => cases div_lookup stmts "IS" "영업이익" <;> rfl
    | some r =>
      rw [hd] at h
      simp only [amt] at h
      cases div_lookup stmts "IS" "영업이익" with
      | none => rfl
      | some o => simp [h]

theorem ratio_debt_dep_val_none (stmts : List FinRow)
    (h : div_lookup stmts "BS" "차입금" = none ∨
      amt (div_lookup stmts "BS" "부채총계") = 0) :
    ratio_debt_dep_val stmts = none := by
  unfold ratio_debt_dep_val block_val ratio_debt_dep_block
  rcases h with h | h
  · rw [h]
    cases div_lookup stmts "BS" "부채총계" <;> rfl
  · cases hd : div_lookup stmts "BS" "부채총계" with
    | none => cases div_lookup stmts "BS" "차입금" <;> rfl
    | some d =>
      rw [hd] at h
      simp only [amt] at h
      cases div_lookup stmts "BS" "차입금" with
      | none => rfl
      | some b => simp [h]

theorem ratio_sales_growth_val_none (stmts : List FinRow)
    (h : div_lookup stmts "IS" "매출액" = none ∨
      prev_amt (div_lookup stmts "IS" "매출액") = 0) :
    ratio_sales_growth_val stmts = none := by
  unfold ratio_sales_growth_val block_val ratio_sales_growth_block
  rcases h with h | h
  · rw [h]
  · cases hd : div_lookup stmts "IS" "매출액" with
    | none => rfl
    | some r =>
      rw [hd] at h
      simp only [prev_amt] at h
      simp [h]

theorem ratio_op_growth_val_none (stmts : List FinRow)
    (h : div_lookup stmts "IS" "영업이익" = none ∨
      prev_amt (div_lookup stmts "IS" "영업이익") = 0) :
    ratio_op_growth_val stmts = none := by
  unfold ratio_op_growth_val block_val ratio_op_growth_block
  rcases h with h | h
  · rw [h]
  · cases hd : div_lookup stmts "IS" "영업이익" with
    | none => rfl
    | some r =>
      rw [hd] at h
      simp only [prev_amt] at h
      simp [h]

theorem ratio_eps_growth_val_none (stmts : List FinRow)
    (h : div_lookup stmts "IS" "당기순이익" = none ∨
      prev_amt (div_lookup stmts "IS" "당기순이익") = 0) :
    ratio_eps_growth_val stmts = none := by
  unfold ratio_eps_growth_val block_val ratio_eps_growth_block
  rcases h with h | h
  · rw [h]
  · cases hd : div_lookup stmts "IS" "당기순이익" with
    | none => rfl
    | some r =>
      rw [hd] at h
      simp only [prev_amt] at h
      simp [h]

theorem ratio_cash_flow_val_none (stmts : List FinRow)
    (h : div_lookup stmts "IS" "영업활동현금흐름" = none ∨
      amt (div_lookup stmts "BS" "부채총계") = 0) :
    ratio_cash_flow_val stmts = none := by
  unfold ratio_cash_flow_val block_val ratio_cash_flow_block
  rcases h with h | h
  · rw [h]
  · cases hd : div_lookup stmts "BS" "부채총계" with
    | none => cases div_lookup stmts "IS" "영업활동현금흐름" <;> rfl
    | some d =>
      rw [hd] at h
      simp only [amt] at h
      cases div_lookup stmts "IS" "영업활동현금흐름" with
      | none => rfl
      | some c => simp [h]

theorem ratio_scope_save_row (c cn : String) (y : Int) (r : RatiosDict) :
    ratio_scope c y (save_ratio_row c cn y r) = true := by
  simp [ratio_scope, save_ratio_row]

theorem filter_delete_ratio_rows (db : List FinRow) (c : String) (y : Int) :
    (delete_ratio_rows db c y).filter (ratio_scope c y) = [] := by
  unfold delete_ratio_rows
  refine List.filter_eq_nil_iff.mpr ?_
  intro a ha
  have := List.of_mem_filter ha
  simp only [Bool.not_eq_true'] at this
  simp [this]

theorem replace_leaves_single_row (db : List FinRow) (c cn : String) (y : Int)
    (r : RatiosDict) :
    (delete_ratio_rows db c y ++ [save_ratio_row c cn y r]).filter (ratio_scope c y)
      = [save_ratio_row c cn y r] := by
  rw [List.filter_append, filter_delete_ratio_rows]
  simp [ratio_scope_save_row]

/-- C9 — For every pair of amounts, the growth-rate function returns 0
when `previous = 0` and otherwise `(current - previous) / abs(previous) * 100`;
at `current = 50, previous = -100` it returns exactly 150. -/
theorem growth_rate_formula (current previous : ℚ) :
    (previous = 0 → calculate_growth_rate current previous = Except.ok 0) ∧
    (previous ≠ 0 →
      calculate_growth_rate current previous =
        Except.ok (((current - previous) / |previous|) * 100)) ∧
    calculate_growth_rate 50 (-100) = Except.ok 150 := by
  refine ⟨fun h => ?_, fun h => ?_, ?_⟩
  · rw [calculate_growth_rate_ok]
    simp [h]
  · rw [calculate_growth_rate_ok]
    simp [h]
  · rw [calculate_growth_rate_ok]
    norm_num

/-- Witness for C9 at the concrete input of the test vector in the spec. -/
theorem growth_rate_formula_witness :
    calculate_growth_rate 50 (-100) = Except.ok 150 :=
  (growth_rate_formula 0 1).2.2

/-- C1 — The ratio engine never raises a division fault (the `Except`
computation succeeds on every input list), and every ratio whose denominator
amount is 0 or whose operand account is absent from the row set is persisted
as exactly 0 in the `RATIO` row written by `_save_ratios`. -/
theorem ratio_engine_safe_division (stmts : List FinRow) (c cn : String) (y : Int) :
    calculate_ratios stmts = Except.ok (ratios_of stmts) ∧
    ((div_lookup stmts "BS" "유동자산" = none ∨
        amt (div_lookup stmts "BS" "유동부채") = 0) →
      (save_ratio_row c cn y (ratios_of stmts)).ratio.current_ratio = 0) ∧
    ((div_lookup stmts "BS" "부채총계" = none ∨
        amt (div_lookup stmts "BS" "자본총계") = 0) →
      (save_ratio_row c cn y (ratios_of stmts)).ratio.debt_ratio = 0) ∧
    ((div_lookup stmts "IS" "당기순이익" = none ∨
        amt (div_lookup stmts "BS" "자본총계") = 0) →
      (save_ratio_row c cn y (ratios_of stmts)).ratio.roe = 0) ∧
    ((div_lookup stmts "IS" "당기순이익" = none ∨
        amt (div_lookup stmts "BS" "자산총계") = 0) →
      (save_ratio_row c cn y (ratios_of stmts)).ratio.roa = 0) ∧
    ((div_lookup stmts "IS" "영업이익" = none ∨
        amt (div_lookup stmts "IS" "매출액") = 0) →
      (save_ratio_row c cn y (ratios_of stmts)).ratio.operating_profit_ratio = 0) ∧
    ((div_lookup stmts "IS" "당기순이익" = none ∨
        amt (div_lookup stmts "IS" "매출액") = 0) →
      (save_ratio_row c cn y (ratios_of stmts)).ratio.net_profit_ratio = 0) ∧
    ((div_lookup stmts "IS" "영업이익" = none ∨
        amt (div_lookup stmts "IS" "이자비용") = 0) →
      (save_ratio_row c cn y (ratios_of stmts)).ratio.interest_coverage_ratio = 0) ∧
    ((div_lookup stmts "BS" "차입금" = none ∨
        amt (div_lookup stmts "BS" "부채총계") = 0) →
      (save_ratio_row c cn y (ratios_of stmts)).ratio.debt_dependency = 0) ∧
    ((div_lookup stmts "IS" "매출액" = none ∨
        prev_amt (div_lookup stmts "IS" "매출액") = 0) →
      (save_ratio_row c cn y (ratios_of stmts)).ratio.sales_growth = 0) ∧
    ((div_lookup stmts "IS" "영업이익" = none ∨
        prev_amt (div_lookup stmts "IS" "영업이익") = 0) →
      (save_ratio_row c cn y (ratios_of stmts)).ratio.operating_profit_growth = 0) ∧
    ((div_lookup stmts "IS" "당기순이익" = none ∨
        prev_amt (div_lookup stmts "IS" "당기순이익") = 0) →
      (save_ratio_row c cn y (ratios_of stmts)).ratio.eps_growth = 0) ∧
    ((div_lookup stmts "IS" "영업활동현금흐름" = none ∨
        amt (div_lookup stmts "BS" "부채총계") = 0) →
      (save_ratio_row c cn y (ratios_of stmts)).ratio.cash_flow_debt_ratio = 0) := by
  refine ⟨calculate_ratios_eq stmts, fun h => ?_, fun h => ?_, fun h => ?_,
    fun h => ?_, fun h => ?_, fun h => ?_, fun h => ?_, fun h => ?_,
    fun h => ?_, fun h => ?_, fun h => ?_, fun h => ?_⟩
  · simp [save_ratio_row, ratios_of, ratio_current_val_none stmts h]
  · simp [save_ratio_row, ratios_of, ratio_debt_val_none stmts h]
  · simp [save_ratio_row, ratios_of, ratio_roe_val_none stmts h]
  · simp [save_ratio_row, ratios_of, ratio_roa_val_none stmts h]
  · simp [save_ratio_row, ratios_of, ratio_op_profit_val_none stmts h]
  · simp [save_ratio_row, ratios_of, ratio_net_profit_val_none stmts h]
  · simp [save_ratio_row, ratios_of, ratio_interest_val_none stmts h]
  · simp [save_ratio_row, ratios_of, ratio_debt_dep_val_none stmts h]
  · simp [save_ratio_row, ratios_of, ratio_sales_growth_val_none stmts h]
  · simp [save_ratio_row, ratios_of, ratio_op_growth_val_none stmts h]
  · simp [save_ratio_row, ratios_of, ratio_eps_growth_val_none stmts h]
  · simp [save_ratio_row, ratios_of, ratio_cash_flow_val_none stmts h]

/-- Witness for C1: on the empty row set every operand is absent, and the
persisted current ratio is 0. -/
theorem ratio_engine_safe_division_witness :
    (save_ratio_row "00126380" "삼성전자" 2023 (ratios_of [])).ratio.current_ratio = 0 :=
  (ratio_engine_safe_division [] "00126380" "삼성전자" 2023).2.1 (Or.inl rfl)

/-- C5 counterexample — the persisted RatioRecord carries 12 named ratio
fields, not 13: the column list of the `INSERT` in `_save_ratios` (equally,
the key set of the dict built in `calculate_financial_ratios`) has length 12. -/
theorem ratio_field_count_not_thirteen :
    ratio_field_names.length = 12 ∧ ¬ ratio_field_names.length = 13 := by
  decide

/-- C5 (amended) — the persisted RatioRecord contains every one of the
**12** named ratio fields, and each ratio any of whose required accounts is
absent from the input rows is present with value exactly 0 (never null,
never omitted). -/
theorem ratio_record_twelve_fields_default_zero (stmts : List FinRow)
    (c cn : String) (y : Int) :
    ratio_field_names.length = 12 ∧
    ((div_lookup stmts "BS" "유동자산" = none ∨ div_lookup stmts "BS" "유동부채" = none) →
      (save_ratio_row c cn y (ratios_of stmts)).ratio.current_ratio = 0) ∧
    ((div_lookup stmts "BS" "부채총계" = none ∨ div_lookup stmts "BS" "자본총계" = none) →
      (save_ratio_row c cn y (ratios_of stmts)).ratio.debt_ratio = 0) ∧
    ((div_lookup stmts "IS" "당기순이익" = none ∨ div_lookup stmts "BS" "자본총계" = none) →
      (save_ratio_row c cn y (ratios_of stmts)).ratio.roe = 0) ∧
    ((div_lookup stmts "IS" "당기순이익" = none ∨ div_lookup stmts "BS" "자산총계" = none) →
      (save_ratio_row c cn y (ratios_of stmts)).ratio.roa = 0) ∧
    ((div_lookup stmts "IS" "영업이익" = none ∨ div_lookup stmts "IS" "매출액" = none) →
      (save_ratio_row c cn y (ratios_of stmts)).ratio.operating_profit_ratio = 0) ∧
    ((div_lookup stmts "IS" "당기순이익" = none ∨ div_lookup stmts "IS" "매출액" = none) →
      (save_ratio_row c cn y (ratios_of stmts)).ratio.net_profit_ratio = 0) ∧
    ((div_lookup stmts "IS" "영업이익" = none ∨ div_lookup stmts "IS" "이자비용" = none) →
      (save_ratio_row c cn y (ratios_of stmts)).ratio.interest_coverage_ratio = 0) ∧
    ((div_lookup stmts "BS" "부채총계" = none ∨ div_lookup stmts "BS" "차입금" = none) →
      (save_ratio_row c cn y (ratios_of stmts)).ratio.debt_dependency = 0) ∧
    (div_lookup stmts "IS" "매출액" = none →
      (save_ratio_row c cn y (ratios_of stmts)).ratio.sales_growth = 0) ∧
    (div_lookup stmts "IS" "영업이익" = none →
      (save_ratio_row c cn y (ratios_of stmts)).ratio.operating_profit_growth = 0) ∧
    (div_lookup stmts "IS" "당기순이익" = none →
      (save_ratio_row c cn y (ratios_of stmts)).ratio.eps_growth = 0) ∧
    ((div_lookup stmts "IS" "영업활동현금흐름" = none ∨ div_lookup stmts "BS" "부채총계" = none) →
      (save_ratio_row c cn y (ratios_of stmts)).ratio.cash_flow_debt_ratio = 0) := by
  refine ⟨rfl, fun h => ?_, fun h => ?_, fun h => ?_, fun h => ?_, fun h => ?_,
    fun h => ?_, fun h => ?_, fun h => ?_, fun h => ?_, fun h => ?_,
    fun h => ?_, fun h => ?_⟩
  · rcases h with h | h
    · simp [save_ratio_row, ratios_of, ratio_current_val_none stmts (Or.inl h)]
    · simp [save_ratio_row, ratios_of,
        ratio_current_val_none stmts (Or.inr (by rw [h]; rfl))]
  · rcases h with h | h
    · simp [save_ratio_row, ratios_of, ratio_debt_val_none stmts (Or.inl h)]
    · simp [save_ratio_row, ratios_of,
        ratio_debt_val_none stmts (Or.inr (by rw [h]; rfl))]
  · rcases h with h | h
    · simp [save_ratio_row, ratios_of, ratio_roe_val_none stmts (Or.inl h)]
    · simp [save_ratio_row, ratios_of,
        ratio_roe_val_none stmts (Or.inr (by rw [h]; rfl))]
  · rcases h with h | h
    · simp [save_ratio_row, ratios_of, ratio_roa_val_none stmts (Or.inl h)]
    · simp [save_ratio_row, ratios_of,
        ratio_roa_val_none stmts (Or.inr (by rw [h]; rfl))]
  · rcases h with h | h
    · simp [save_ratio_row, ratios_of, ratio_op_profit_val_none stmts (Or.inl h)]
    · simp [save_ratio_row, ratios_of,
        ratio_op_profit_val_none stmts (Or.inr (by rw [h]; rfl))]
  · rcases h with h | h
    · simp [save_ratio_row, ratios_of, ratio_net_profit_val_none stmts (Or.inl h)]
    · simp [save_ratio_row, ratios_of,
        ratio_net_profit_val_none stmts (Or.inr (by rw [h]; rfl))]
  · rcases h with h | h
    · simp [save_ratio_row, ratios_of, ratio_interest_val_none stmts (Or.inl h)]
    · simp [save_ratio_row, ratios_of,
        ratio_interest_val_none stmts (Or.inr (by rw [h]; rfl))]
  · rcases h with h | h
    · simp [save_ratio_row, ratios_of,
        ratio_debt_dep_val_none stmts (Or.inr (by rw [h]; rfl))]
    · simp [save_ratio_row, ratios_of, ratio_debt_dep_val_none stmts (Or.inl h)]
  · simp [save_ratio_row, ratios_of, ratio_sales_growth_val_none stmts (Or.inl h)]
  · simp [save_ratio_row, ratios_of, ratio_op_growth_val_none stmts (Or.inl h)]
  · simp [save_ratio_row, ratios_of, ratio_eps_growth_val_none stmts (Or.inl h)]
  · rcases h with h | h
    · simp [save_ratio_row, ratios_of, ratio_cash_flow_val_none stmts (Or.inl h)]
    · simp [save_ratio_row, ratios_of,
        ratio_cash_flow_val_none stmts (Or.inr (by rw [h]; rfl))]

/-- Witness for the amended C5 on the empty row set. -/
theorem ratio_record_twelve_fields_default_zero_witness :
    (save_ratio_row "00126380" "삼성전자" 2023 (ratios_of [])).ratio.eps_growth = 0 :=
  (ratio_record_twelve_fields_default_zero [] "00126380" "삼성전자" 2023).2.2.2.2.2.2.2.2.2.2.2.1 rfl

/-- C3 — the ratio save is replace-semantics: after one save exactly one
`RATIO` row exists for the `(corp_code, bsns_year)` key, and after a second
save with a different payload exactly one row exists, matching the second
payload; both saves commit. -/
theorem ratio_replace_exactly_one (sess : Session) (c cn : String) (y : Int)
    (r1 r2 : RatiosDict) :
    ((save_ratios sess SaveFault.ok c cn y r1).1.committed.filter (ratio_scope c y)
        = [save_ratio_row c cn y r1]) ∧
    ((save_ratios (save_ratios sess SaveFault.ok c cn y r1).1
          SaveFault.ok c cn y r2).1.committed.filter (ratio_scope c y)
        = [save_ratio_row c cn y r2]) ∧
    (save_ratios sess SaveFault.ok c cn y r1).2 = Except.ok () := by
  refine ⟨?_, ?_, rfl⟩
  · simpa [save_ratios, session_commit] using replace_leaves_single_row sess.pending c cn y r1
  · simpa [save_ratios, session_commit] using
      replace_leaves_single_row
        (delete_ratio_rows sess.pending c y ++ [save_ratio_row c cn y r1]) c cn y r2

theorem map_lookup_upsert_self (m : List (DKey × RawStatement)) (k : DKey)
    (v : RawStatement) : map_lookup (map_upsert m k v) k = some v := by
  induction m with
  | nil => simp [map_upsert, map_lookup]
  | cons p rest ih =>
    obtain ⟨k1, v1⟩ := p
    by_cases h : k1 = k
    · simp [map_upsert, h, map_lookup]
    · simp [map_upsert, h, map_lookup, ih]

theorem map_lookup_upsert_ne (m : List (DKey × RawStatement)) (k k2 : DKey)
    (v : RawStatement) (h : k2 ≠ k) :
    map_lookup (map_upsert m k v) k2 = map_lookup m k2 := by
  have hne : ¬ (k = k2) := fun hh => h hh.symm
  induction m with
  | nil => simp only [map_upsert, map_lookup, if_neg hne]
  | cons p rest ih =>
    obtain ⟨k1, v1⟩ := p
    by_cases h1 : k1 = k
    · subst h1
      simp only [map_upsert, if_pos rfl, map_lookup, if_neg hne]
    · simp only [map_upsert, if_neg h1, map_lookup]
      by_cases h2 : k1 = k2
      · simp [h2]
      · simp [h2, ih]

theorem dedup_go_lookup (l : List RawStatement) :
    ∀ (m : List (DKey × RawStatement)) (k : DKey),
      map_lookup (dedup_go m l) k
        = pick_min (map_lookup m k) (l.filter fun s => decide (dkey s = k)) := by
  induction l with
  | nil => intro m k; rfl
  | cons s rest ih =>
    intro m k
    by_cases hk : dkey s = k
    · subst hk
      have hfc : (s :: rest).filter (fun u => decide (dkey u = dkey s))
          = s :: rest.filter (fun u => decide (dkey u = dkey s)) := by
        simp [List.filter_cons]
      cases hm : map_lookup m (dkey s) with
      | none =>
        simp only [dedup_go, hm, hfc]
        rw [ih, map_lookup_upsert_self]
        simp [pick_min, pick]
      | some t =>
        by_cases hlt : s.ord < t.ord
        · simp only [dedup_go, hm, if_pos hlt, hfc]
          rw [ih, map_lookup_upsert_self]
          simp [pick_min, pick, hlt]
        · simp only [dedup_go, hm, if_neg hlt, hfc]
          rw [ih]
          simp [pick_min, pick, hlt, hm]
    · have hfilter : (s :: rest).filter (fun s => decide (dkey s = k))
          = rest.filter (fun s => decide (dkey s = k)) := by
        simp [List.filter_cons, hk]
      cases hm : map_lookup m (dkey s) with
      | none =>
        simp only [dedup_go, hm]
        rw [ih, map_lookup_upsert_ne _ _ _ _ (fun hh => hk hh.symm), hfilter]
      | some t =>
        by_cases hlt : s.ord < t.ord
        · simp only [dedup_go, hm, if_pos hlt]
          rw [ih, map_lookup_upsert_ne _ _ _ _ (fun hh => hk hh.symm), hfilter]
        · simp only [dedup_go, hm, if_neg hlt]
          rw [ih, hfilter]

theorem upsert_entries_keyed (m : List (DKey × RawStatement)) (k : DKey)
    (v : RawStatement) (hm : entries_keyed m) (hv : dkey v = k) :
    entries_keyed (map_upsert m k v) := by
  induction m with
  | nil =>
    intro p hp
    simp only [map_upsert, List.mem_singleton] at hp
    subst hp; exact hv
  | cons q rest ih =>
    obtain ⟨k1, v1⟩ := q
    intro p hp
    by_cases h : k1 = k
    · simp only [map_upsert, if_pos h, List.mem_cons] at hp
      rcases hp with hp | hp
      · subst hp; exact hv
      · exact hm p (List.mem_cons_of_mem _ hp)
    · simp only [map_upsert, if_neg h, List.mem_cons] at hp
      rcases hp with hp | hp
      · subst hp; exact hm _ (List.mem_cons_self _ _)
      · exact ih (fun q hq => hm q (List.mem_cons_of_mem _ hq)) p hp

theorem mem_keys_upsert (m : List (DKey × RawStatement)) (k k2 : DKey)
    (v : RawStatement) (h : k2 ∈ (map_upsert m k v).map Prod.fst) :
    k2 ∈ m.map Prod.fst ∨ k2 = k := by
  induction m with
  | nil =>
    simp only [map_upsert, List.map_cons, List.map_nil, List.mem_singleton] at h
    exact Or.inr h
  | cons q rest ih =>
    obtain ⟨k1, v1⟩ := q
    by_cases h1 : k1 = k
    · rw [map_upsert, if_pos h1] at h
      simp only [List.map_cons, List.mem_cons] at h
      rcases h with h | h
      · exact Or.inr h
      · exact Or.inl (List.mem_cons.mpr (Or.inr h))
    · rw [map_upsert, if_neg h1] at h
      simp only [List.map_cons, List.mem_cons] at h
      rcases h with h | h
      · exact Or.inl (List.mem_cons.mpr (Or.inl h))
      · rcases ih h with h | h
        · exact Or.inl (List.mem_cons.mpr (Or.inr h))
        · exact Or.inr h

theorem upsert_keys_nodup (m : List (DKey × RawStatement)) (k : DKey)
    (v : RawStatement) (h : (m.map Prod.fst).Nodup) :
    ((map_upsert m k v).map Prod.fst).Nodup := by
  induction m with
  | nil => simp [map_upsert]
  | cons q rest ih =>
    obtain ⟨k1, v1⟩ := q
    simp only [List.map_cons, List.nodup_cons] at h
    by_cases h1 : k1 = k
    · subst h1
      have hre : map_upsert ((k1, v1) :: rest) k1 v = (k1, v) :: rest := by
        rw [map_upsert, if_pos rfl]
      rw [hre]
      simp only [List.map_cons, List.nodup_cons]
      exact h
    · have hre : map_upsert ((k1, v1) :: rest) k v = (k1, v1) :: map_upsert rest k v := by
        rw [map_upsert, if_neg h1]
      rw [hre]
      simp only [List.map_cons, List.nodup_cons]
      refine ⟨fun hmem => ?_, ih h.2⟩
      rcases mem_keys_upsert rest k k1 v hmem with hh | hh
      · exact h.1 hh
      · exact h1 hh

theorem dedup_go_entries_keyed (l : List RawStatement) :
    ∀ m, entries_keyed m → entries_keyed (dedup_go m l) := by
  induction l with
  | nil => intro m hm; exact hm
  | cons s rest ih =>
    intro m hm
    simp only [dedup_go]
    cases map_lookup m (dkey s) with
    | none => exact ih _ (upsert_entries_keyed m (dkey s) s hm rfl)
    | some t =>
      by_cases hlt : s.ord < t.ord
      · simpa [hlt] using ih _ (upsert_entries_keyed m (dkey s) s hm rfl)
      · simpa [hlt] using ih m hm

theorem dedup_go_keys_nodup (l : List RawStatement) :
    ∀ m, (m.map Prod.fst).Nodup → ((dedup_go m l).map Prod.fst).Nodup := by
  induction l with
  | nil => intro m hm; exact hm
  | cons s rest ih =>
    intro m hm
    simp only [dedup_go]
    cases map_lookup m (dkey s) with
    | none => exact ih _ (upsert_keys_nodup m (dkey s) s hm)
    | some t =>
      by_cases hlt : s.ord < t.ord
      · simpa [hlt] using ih _ (upsert_keys_nodup m (dkey s) s hm)
      · simpa [hlt] using ih m hm

theorem values_filter_eq_lookup (m : List (DKey × RawStatement)) (k : DKey)
    (hkeyed : entries_keyed m) (hnodup : (m.map Prod.fst).Nodup) :
    (m.map Prod.snd).filter (fun r => decide (dkey r = k))
      = (map_lookup m k).toList := by
  induction m with
  | nil => rfl
  | cons p rest ih =>
    obtain ⟨k1, v1⟩ := p
    have hv1 : dkey v1 = k1 := hkeyed _ (List.mem_cons_self _ _)
    simp only [List.map_cons, List.nodup_cons] at hnodup
    by_cases h : k1 = k
    · subst h
      have h1 : List.filter (fun r => decide (dkey r = k1))
            (((k1, v1) :: rest).map Prod.snd)
          = v1 :: (rest.map Prod.snd).filter (fun r => decide (dkey r = k1)) := by
        simp [List.filter_cons, hv1]
      have h2 : (rest.map Prod.snd).filter (fun r => decide (dkey r = k1)) = [] := by
        refine List.filter_eq_nil_iff.mpr ?_
        intro r hr
        obtain ⟨q, hq, rfl⟩ := List.mem_map.mp hr
        have hkq : dkey q.2 = q.1 := hkeyed q (List.mem_cons_of_mem _ hq)
        have hne : q.1 ≠ k1 := fun hh => hnodup.1 (hh ▸ List.mem_map_of_mem Prod.fst hq)
        simp [hkq, hne]
      rw [h1, h2]
      simp [map_lookup]
    · have h3 : List.filter (fun r => decide (dkey r = k))
            (((k1, v1) :: rest).map Prod.snd)
          = (rest.map Prod.snd).filter (fun r => decide (dkey r = k)) := by
        simp [List.filter_cons, hv1, h]
      have h4 : map_lookup ((k1, v1) :: rest) k = map_lookup rest k := by
        simp [map_lookup, h]
      rw [h3, h4]
      exact ih (fun q hq => hkeyed q (List.mem_cons_of_mem _ hq)) hnodup.2

theorem pick_min_mem (l : List RawStatement) :
    ∀ (acc : Option RawStatement) (r : RawStatement),
      pick_min acc l = some r → acc = some r ∨ r ∈ l := by
  induction l with
  | nil => intro acc r h; exact Or.inl h
  | cons s rest ih =>
    intro acc r h
    rcases ih (pick acc s) r h with hp | hp
    · cases acc with
      | none =>
        simp only [pick] at hp
        exact Or.inr (by simp [← Option.some_inj.mp hp])
      | some t =>
        simp only [pick] at hp
        by_cases hlt : s.ord < t.ord
        · rw [if_pos hlt] at hp
          exact Or.inr (by simp [← Option.some_inj.mp hp])
        · rw [if_neg hlt] at hp
          exact Or.inl hp
    · exact Or.inr (List.mem_cons_of_mem _ hp)

theorem pick_min_le (l : List RawStatement) :
    ∀ (acc : Option RawStatement) (r : RawStatement),
      pick_min acc l = some r →
        (∀ t, acc = some t → r.ord ≤ t.ord) ∧ ∀ s ∈ l, r.ord ≤ s.ord := by
  induction l with
  | nil =>
    intro acc r h
    have hacc : acc = some r := h
    refine ⟨fun t ht => ?_, fun s hs => absurd hs (List.not_mem_nil s)⟩
    rw [hacc] at ht
    obtain rfl := Option.some_inj.mp ht
    exact le_refl _
  | cons s rest ih =>
    intro acc r h
    obtain ⟨h1, h2⟩ := ih (pick acc s) r h
    have hs_le : r.ord ≤ s.ord := by
      cases acc with
      | none => exact h1 s rfl
      | some t =>
        by_cases hlt : s.ord < t.ord
        · exact h1 s (by simp [pick, hlt])
        · exact le_trans (h1 t (by simp [pick, hlt])) (not_lt.mp hlt)
    refine ⟨fun t ht => ?_, fun u hu => ?_⟩
    · subst ht
      by_cases hlt : s.ord < t.ord
      · exact le_trans (h1 s (by simp [pick, hlt])) (le_of_lt hlt)
      · exact h1 t (by simp [pick, hlt])
    · rcases List.mem_cons.mp hu with hu | hu
      · subst hu; exact hs_le
      · exact h2 u hu

theorem pick_min_first (l : List RawStatement) :
    ∀ (acc : Option RawStatement) (r : RawStatement),
      pick_min acc l = some r →
        acc = some r ∨
          ∃ l1 l2, l = l1 ++ r :: l2 ∧ (∀ t, acc = some t → r.ord < t.ord) ∧
            ∀ s ∈ l1, r.ord < s.ord := by
  induction l with
  | nil => intro acc r h; exact Or.inl h
  | cons s rest ih =>
    intro acc r h
    rcases ih (pick acc s) r h with hp | ⟨l1, l2, hl, hacc, hmin⟩
    · cases acc with
      | none =>
        have hr : s = r := Option.some_inj.mp hp
        subst hr
        refine Or.inr ⟨[], rest, rfl, ?_, ?_⟩
        · intro t ht
          exact absurd ht (by simp)
        · intro u hu
          exact absurd hu (List.not_mem_nil u)
      | some t =>
        simp only [pick] at hp
        by_cases hlt : s.ord < t.ord
        · rw [if_pos hlt] at hp
          have hr : s = r := Option.some_inj.mp hp
          subst hr
          refine Or.inr ⟨[], rest, rfl, fun t2 ht2 => ?_, ?_⟩
          · obtain rfl := Option.some_inj.mp ht2
            exact hlt
          · intro u hu
            exact absurd hu (List.not_mem_nil u)
        · rw [if_neg hlt] at hp
          exact Or.inl hp
    · refine Or.inr ⟨s :: l1, l2, by rw [hl, List.cons_append], fun t ht => ?_,
        fun u hu => ?_⟩
      · subst ht
        by_cases hlt : s.ord < t.ord
        · exact lt_trans (hacc s (by simp [pick, hlt])) hlt
        · exact hacc t (by simp [pick, hlt])
      · rcases List.mem_cons.mp hu with hu | hu
        · subst hu
          cases acc with
          | none => exact hacc u rfl
          | some t =>
            by_cases hlt : u.ord < t.ord
            · exact hacc u (by simp [pick, hlt])
            · exact lt_of_lt_of_le (hacc t (by simp [pick, hlt])) (not_lt.mp hlt)
        · exact hmin u hu

theorem pick_min_some (l : List RawStatement) :
    ∀ t, ∃ r, pick_min (some t) l = some r := by
  induction l with
  | nil => intro t; exact ⟨t, rfl⟩
  | cons s rest ih =>
    intro t
    simp only [pick_min, pick]
    by_cases hlt : s.ord < t.ord
    · rw [if_pos hlt]; exact ih s
    · rw [if_neg hlt]; exact ih t

theorem pick_min_ne_nil (l : List RawStatement) (h : l ≠ []) :
    ∃ r, pick_min none l = some r := by
  cases l with
  | nil => exact absurd rfl h
  | cons s rest => exact pick_min_some rest s

/-- C2 — for every key occurring in the input, the deduplicator keeps
exactly one row for that key; the survivor comes from the input, has the
minimum display order among all same-key rows, and on ties the
first-encountered row survives (every earlier same-key row has a strictly
larger display order). -/
theorem dedup_min_display_order (stmts : List RawStatement) (k : DKey)
    (hk : ∃ s ∈ stmts, dkey s = k) :
    ∃ r, (deduplicate_statements stmts).filter (fun x => decide (dkey x = k)) = [r] ∧
      r ∈ stmts ∧ dkey r = k ∧
      (∀ s ∈ stmts, dkey s = k → r.ord ≤ s.ord) ∧
      (∃ l1 l2, stmts.filter (fun s => decide (dkey s = k)) = l1 ++ r :: l2 ∧
        ∀ s ∈ l1, r.ord < s.ord) := by
  have hfl : stmts.filter (fun s => decide (dkey s = k)) ≠ [] := by
    obtain ⟨s, hs, hks⟩ := hk
    exact List.ne_nil_of_mem (List.mem_filter.mpr ⟨hs, by simp [hks]⟩)
  obtain ⟨r, hr⟩ := pick_min_ne_nil _ hfl
  have hlook : map_lookup (dedup_go [] stmts) k = some r := by
    rw [dedup_go_lookup]
    exact hr
  have hmemfl : r ∈ stmts.filter (fun s => decide (dkey s = k)) := by
    rcases pick_min_mem _ none r hr with h0 | h1
    · cases h0
    · exact h1
  have hmem := List.mem_filter.mp hmemfl
  refine ⟨r, ?_, hmem.1, by simpa using hmem.2, fun s hs hks => ?_, ?_⟩
  · unfold deduplicate_statements
    rw [values_filter_eq_lookup _ k
      (dedup_go_entries_keyed stmts [] (fun p hp => absurd hp (List.not_mem_nil p)))
      (dedup_go_keys_nodup stmts [] List.nodup_nil), hlook]
    rfl
  · exact (pick_min_le _ none r hr).2 s (List.mem_filter.mpr ⟨hs, by simp [hks]⟩)
  · rcases pick_min_first _ none r hr with h0 | ⟨l1, l2, hl, _, hmin⟩
    · cases h0
    · exact ⟨l1, l2, hl, hmin⟩

/-- Witness for C2: three rows sharing the key ("자산총계", "재무상태표") with
display orders 5, 3, 3 — the `ord = 3` row arriving first among the minima
survives. -/
theorem dedup_min_display_order_witness :
    ∃ r, ((deduplicate_statements
        [{ account_nm := "자산총계", sj_nm := "재무상태표", ord := 5, rcept_no := "a" },
         { account_nm := "자산총계", sj_nm := "재무상태표", ord := 3, rcept_no := "b" },
         { account_nm := "자산총계", sj_nm := "재무상태표", ord := 3, rcept_no := "c" }]).filter
          (fun x => decide (dkey x = ("자산총계", "재무상태표"))) = [r]) ∧
      r ∈ [{ account_nm := "자산총계", sj_nm := "재무상태표", ord := 5, rcept_no := "a" },
         ({ account_nm := "자산총계", sj_nm := "재무상태표", ord := 3, rcept_no := "b" } : RawStatement),
         { account_nm := "자산총계", sj_nm := "재무상태표", ord := 3, rcept_no := "c" }] ∧
      dkey r = ("자산총계", "재무상태표") ∧
      (∀ s ∈ [{ account_nm := "자산총계", sj_nm := "재무상태표", ord := 5, rcept_no := "a" },
         ({ account_nm := "자산총계", sj_nm := "재무상태표", ord := 3, rcept_no := "b" } : RawStatement),
         { account_nm := "자산총계", sj_nm := "재무상태표", ord := 3, rcept_no := "c" }],
        dkey s = ("자산총계", "재무상태표") → r.ord ≤ s.ord) ∧
      (∃ l1 l2, ([{ account_nm := "자산총계", sj_nm := "재무상태표", ord := 5, rcept_no := "a" },
         ({ account_nm := "자산총계", sj_nm := "재무상태표", ord := 3, rcept_no := "b" } : RawStatement),
         { account_nm := "자산총계", sj_nm := "재무상태표", ord := 3, rcept_no := "c" }].filter
            (fun s => decide (dkey s = ("자산총계", "재무상태표")))) = l1 ++ r :: l2 ∧
        ∀ s ∈ l1, r.ord < s.ord) :=
  dedup_min_display_order _ _
    ⟨{ account_nm := "자산총계", sj_nm := "재무상태표", ord := 5, rcept_no := "a" },
      by simp, rfl⟩

theorem lookup_eq_none_of_not_mem_keys (m : List (DKey × RawStatement)) (k : DKey)
    (h : k ∉ m.map Prod.fst) : map_lookup m k = none := by
  induction m with
  | nil => rfl
  | cons p rest ih =>
    obtain ⟨k1, v1⟩ := p
    simp only [List.map_cons, List.mem_cons] at h
    push_neg at h
    have hne : ¬ (k1 = k) := fun hh => h.1 hh.symm
    simp only [map_lookup, if_neg hne]
    exact ih h.2

theorem upsert_not_mem (m : List (DKey × RawStatement)) (k : DKey) (v : RawStatement)
    (h : k ∉ m.map Prod.fst) : map_upsert m k v = m ++ [(k, v)] := by
  induction m with
  | nil => rfl
  | cons p rest ih =>
    obtain ⟨k1, v1⟩ := p
    simp only [List.map_cons, List.mem_cons] at h
    push_neg at h
    have hne : ¬ (k1 = k) := fun hh => h.1 hh.symm
    simp only [map_upsert, if_neg hne, List.cons_append]
    rw [ih h.2]

theorem dedup_go_distinct (l : List RawStatement) :
    ∀ m, (l.map dkey).Nodup → (∀ s ∈ l, dkey s ∉ m.map Prod.fst) →
      dedup_go m l = m ++ l.map (fun s => (dkey s, s)) := by
  induction l with
  | nil => intro m _ _; simp [dedup_go]
  | cons s rest ih =>
    intro m hnodup hdisj
    simp only [List.map_cons, List.nodup_cons] at hnodup
    have hs : dkey s ∉ m.map Prod.fst := hdisj s (List.mem_cons_self _ _)
    simp only [dedup_go, lookup_eq_none_of_not_mem_keys m (dkey s) hs]
    rw [upsert_not_mem m (dkey s) s hs]
    rw [ih (m ++ [(dkey s, s)]) hnodup.2 ?_]
    · simp
    · intro u hu
      simp only [List.map_append, List.mem_append, List.map_cons, List.map_nil,
        List.mem_singleton]
      push_neg
      refine ⟨fun hh => hdisj u (List.mem_cons_of_mem _ hu) hh, fun hh => ?_⟩
      exact hnodup.1 (hh ▸ List.mem_map_of_mem dkey hu)

theorem dedup_keys_nodup (stmts : List RawStatement) :
    ((deduplicate_statements stmts).map dkey).Nodup := by
  unfold deduplicate_statements
  rw [List.map_map]
  have hk : entries_keyed (dedup_go [] stmts) :=
    dedup_go_entries_keyed stmts [] (fun p hp => absurd hp (List.not_mem_nil p))
  have : (dedup_go [] stmts).map (dkey ∘ Prod.snd) = (dedup_go [] stmts).map Prod.fst :=
    List.map_congr_left (fun p hp => hk p hp)
  rw [this]
  exact dedup_go_keys_nodup stmts [] List.nodup_nil

/-- C8 — the deduplicator is idempotent: a second pass over its own
output returns the very same list. -/
theorem dedup_idempotent (stmts : List RawStatement) :
    deduplicate_statements (deduplicate_statements stmts)
      = deduplicate_statements stmts := by
  conv_lhs => rw [deduplicate_statements]
  rw [dedup_go_distinct (deduplicate_statements stmts) [] (dedup_keys_nodup stmts)
    (by intro s _; exact List.not_mem_nil _)]
  simp only [List.nil_append, List.map_map]
  have hcomp : (Prod.snd ∘ fun s : RawStatement => (dkey s, s)) = id := rfl
  rw [hcomp, List.map_id]

/-- The write path always issues at least the statement delete/insert pair
(or, on an empty deduped batch, the degenerate empty insert). -/
theorem fs_write_path_effs_ne_nil (name : String) (year : Option Int)
    (ci : CompanyInfo) (stmts : List RawStatement) (fault : SaveFault)
    (sess : Session) : (fs_write_path name year ci stmts fault sess).2.1 ≠ [] := by
  unfold fs_write_path
  cases deduplicate_statements stmts with
  | nil => simp
  | cons d0 ds =>
    dsimp only
    rcases calculate_and_save_ratios (stmt_save_session ci year (d0 :: ds) sess)
        fault ci.corp_code ci.corp_name d0.bsns_year with ⟨sess3, effs2, res⟩
    cases res <;> simp

/-- C4 — with cached rows present and no pinned year, the pipeline
returns the cached rows (ratio rows excluded, sorted by year desc,
statement division, display order) with no writes and an unchanged session
**iff** the business year of the fetched batch is not strictly greater than the
maximum persisted year. -/
theorem freshness_gate_short_circuit (name : String) (ci : CompanyInfo)
    (s0 : RawStatement) (rest : List RawStatement) (fault : SaveFault)
    (sess : Session) (ly : Int)
    (hlatest : latest_year_of sess.pending name = some ly) :
    (fs_fetch_and_save name none ci (s0 :: rest) fault sess =
        ({ status := "success",
           message := name ++ "의 재무제표 데이터가 이미 존재합니다.",
           data := select_non_ratio sess.pending name }, ([] : List Eff), sess))
      ↔ s0.bsns_year ≤ ly := by
  constructor
  · intro h
    by_contra hgt
    have hf : freshness_cached none (latest_year_of sess.pending name) s0.bsns_year
        = false := by
      rw [hlatest]
      simp [freshness_cached, hgt]
    have heffs := congrArg (fun t => t.2.1) h
    simp only [fs_fetch_and_save, hf, Bool.false_eq_true, if_false] at heffs
    exact fs_write_path_effs_ne_nil name none ci (s0 :: rest) fault sess heffs
  · intro hle
    have hf : freshness_cached none (latest_year_of sess.pending name) s0.bsns_year
        = true := by
      rw [hlatest]
      simp [freshness_cached, hle]
    simp only [fs_fetch_and_save, hf, if_true]

/-- Witness for C4: persisted max year 2023 and a fetched batch of year 2023
short-circuit to the cached rows with no writes. -/
theorem freshness_gate_short_circuit_witness :
    fs_fetch_and_save "에이컴" none c4_ci [c4_stmt] SaveFault.ok c4_sess =
      ({ status := "success",
         message := "에이컴" ++ "의 재무제표 데이터가 이미 존재합니다.",
         data := select_non_ratio c4_sess.pending "에이컴" }, ([] : List Eff), c4_sess) :=
  (freshness_gate_short_circuit "에이컴" c4_ci c4_stmt [] SaveFault.ok c4_sess 2023
    (by decide)).mpr (by decide)

/-- A failed delete or insert in `_save_ratios` rolls the session back to its
committed state and re-raises, with the logged error message. -/
theorem save_ratios_fault (sess : Session) (fault : SaveFault) (c cn : String)
    (y : Int) (r : RatiosDict) (h : fault ≠ SaveFault.ok) :
    save_ratios sess fault c cn y r =
      ({ committed := sess.committed, pending := sess.committed },
       Except.error "재무비율 저장 중 오류 발생") := by
  cases fault with
  | ok => exact absurd rfl h
  | delete_fails => rfl
  | insert_fails => rfl

/-- C6 — (i) a failing delete/insert in the ratio save rolls the
transaction back to the pre-operation committed state and raises; (ii) the
pipeline converts that raised error into the `status = "error"` result with
the failure message, leaving the store exactly as the statement save left it
(the pre-operation state of the ratio save); (iii) every invocation returns the
uniform shape: `status = "success"`, or `status = "error"` with a nonempty
message. -/
theorem ratio_save_failure_rollback_error_result :
    (∀ (sess : Session) (fault : SaveFault) (c cn : String) (y : Int)
       (r : RatiosDict), fault ≠ SaveFault.ok →
        save_ratios sess fault c cn y r =
          ({ committed := sess.committed, pending := sess.committed },
           Except.error "재무비율 저장 중 오류 발생")) ∧
    (∀ (name : String) (year : Option Int) (ci : CompanyInfo)
       (s0 d0 : RawStatement) (rest ds : List RawStatement) (fault : SaveFault)
       (sess : Session), fault ≠ SaveFault.ok →
      freshness_cached year (latest_year_of sess.pending name) s0.bsns_year = false →
      deduplicate_statements (s0 :: rest) = d0 :: ds →
      ratio_select (stmt_save_session ci year (d0 :: ds) sess).pending
          ci.corp_code d0.bsns_year ≠ [] →
      ∃ effs, fs_fetch_and_save name year ci (s0 :: rest) fault sess =
        ({ status := "error", message := "재무비율 저장 중 오류 발생", data := [] },
         effs, stmt_save_session ci year (d0 :: ds) sess)) ∧
    (∀ (name : String) (year : Option Int) (ci : CompanyInfo)
       (stmts : List RawStatement) (fault : SaveFault) (sess : Session),
      (fs_fetch_and_save name year ci stmts fault sess).1.status = "success" ∨
        ((fs_fetch_and_save name year ci stmts fault sess).1.status = "error" ∧
         (fs_fetch_and_save name year ci stmts fault sess).1.message ≠ "")) := by
  refine ⟨fun sess fault c cn y r h => save_ratios_fault sess fault c cn y r h,
    ?_, ?_⟩
  · intro name year ci s0 d0 rest ds fault sess hfault hf hdedup hsel
    refine ⟨[Eff.delete_statements ci.corp_code d0.rcept_no year,
      Eff.insert_statements ((d0 :: ds).map (prepare_statement_data ci))] ++ [], ?_⟩
    simp only [fs_fetch_and_save, hf, Bool.false_eq_true, if_false]
    unfold fs_write_path
    rw [hdedup]
    simp only [calculate_and_save_ratios, if_neg hsel, calculate_ratios_eq]
    rw [save_ratios_fault _ _ _ _ _ _ hfault]
    rfl
  · intro name year ci stmts fault sess
    have hmsg1 : ("재무제표 데이터를 찾을 수 없습니다." : String) ≠ "" := by decide
    have hmsg2 : ("재무비율 저장 중 오류 발생" : String) ≠ "" := by decide
    cases stmts with
    | nil => exact Or.inr ⟨rfl, hmsg1⟩
    | cons s0 rest =>
      simp only [fs_fetch_and_save]
      by_cases hf : freshness_cached year (latest_year_of sess.pending name)
          s0.bsns_year = true
      · rw [if_pos hf]
        exact Or.inl rfl
      · rw [if_neg hf]
        unfold fs_write_path
        cases deduplicate_statements (s0 :: rest) with
        | nil => exact Or.inl rfl
        | cons d0 ds =>
          simp only [calculate_and_save_ratios]
          by_cases hsel : ratio_select
              (stmt_save_session ci year (d0 :: ds) sess).pending
              ci.corp_code d0.bsns_year = []
          · rw [if_pos hsel]
            exact Or.inl rfl
          · rw [if_neg hsel, calculate_ratios_eq]
            cases fault with
            | ok => exact Or.inl rfl
            | delete_fails => exact Or.inr ⟨rfl, hmsg2⟩
            | insert_fails => exact Or.inr ⟨rfl, hmsg2⟩

/-- Witness for C6: a concrete failing ratio save surfaces the error result,
with the store left at the statement-save state. -/
theorem ratio_save_failure_rollback_error_result_witness :
    ∃ effs, fs_fetch_and_save "에이컴" none c4_ci [c4_stmt] SaveFault.delete_fails
        c6_sess =
      ({ status := "error", message := "재무비율 저장 중 오류 발생", data := [] },
       effs, stmt_save_session c4_ci none [c4_stmt] c6_sess) :=
  ratio_save_failure_rollback_error_result.2.1 "에이컴" none c4_ci c4_stmt c4_stmt
    [] [] SaveFault.delete_fails c6_sess (by decide) (by decide) (by decide)
    (by decide)

/-- C7 counterexample — when the statements endpoint answers with a
non-success HTTP status (500), `FinService.fetch_and_save_financial_data`
returns a *success*-status result (with the silently empty batch), not an
error-status result. -/
theorem fin_service_non_success_returns_success :
    (fin_fetch_and_save "에이컴" c4_ci c7_bsis c7_cf SaveFault.ok c6_sess).1.status
        = "success" ∧
    ¬ (fin_fetch_and_save "에이컴" c4_ci c7_bsis c7_cf SaveFault.ok c6_sess).1.status
        = "error" ∧
    (fin_fetch_and_save "에이컴" c4_ci c7_bsis c7_cf SaveFault.ok c6_sess).2.2
        = c6_sess := by
  refine ⟨by decide, by decide, by decide⟩

/-- C7 (amended) — the service `FinancialStatementService.fetch_and_save_financial_data`
surfaces a fetch that yields no statements (the transport-failure case) as an
error-status result before any delete/insert; `FinService`, by contrast, on a
non-success statements response performs no statement write but returns a
*success*-status result over the (empty) cached data. -/
theorem upstream_failure_error_amended :
    (∀ (name : String) (year : Option Int) (ci : CompanyInfo) (fault : SaveFault)
       (sess : Session),
       fs_fetch_and_save name year ci [] fault sess =
         ({ status := "error", message := "재무제표 데이터를 찾을 수 없습니다.",
            data := [] }, [], sess)) ∧
    (∀ (name : String) (ci : CompanyInfo) (bsis cf : HttpResponse)
       (fault : SaveFault) (sess : Session),
       bsis.http_status ≠ 200 → cf.http_status ≠ 200 →
       (sess.pending.filter fun r => decide (r.corp_name = name)).length = 0 →
       fin_fetch_and_save name ci bsis cf fault sess =
         ({ status := "success",
            message := name ++ "의 재무제표 데이터가 성공적으로 저장되었습니다.",
            data := select_non_ratio sess.pending name },
          [Eff.insert_statements []], session_commit sess)) := by
  constructor
  · intro name year ci fault sess
    rfl
  · intro name ci bsis cf fault sess h1 h2 hcount
    have hfetch : fetch_statements_from_api bsis cf = [] := by
      unfold fetch_statements_from_api
      rw [if_neg (fun hh => h1 hh.1), if_neg (fun hh => h2 hh.1)]
      rfl
    simp only [fin_fetch_and_save, hcount]
    rw [if_neg (by omega), hfetch]
    rfl

/-- Witness for the amended C7: concrete 500-status responses. -/
theorem upstream_failure_error_amended_witness :
    fin_fetch_and_save "에이컴" c4_ci c7_bsis c7_cf SaveFault.ok c6_sess =
      ({ status := "success",
         message := "에이컴" ++ "의 재무제표 데이터가 성공적으로 저장되었습니다.",
         data := select_non_ratio c6_sess.pending "에이컴" },
       [Eff.insert_statements []], session_commit c6_sess) :=
  upstream_failure_error_amended.2 "에이컴" c4_ci c7_bsis c7_cf SaveFault.ok c6_sess
    (by decide) (by decide) (by decide)

/-- C10 — both service constructors pass the session to
`FinRepository(...)`, whose initializer accepts no parameter besides `self`:
for every session (and any environment), construction raises `TypeError`,
and no `ok` service object can ever be produced. -/
theorem service_constructor_type_error (db : DbSession)
    (env_api_key : Option String) :
    fin_service_new db env_api_key =
        PyInitResult.type_error
          "FinRepository.__init__ takes 1 positional argument but 2 were given" ∧
    ratio_service_new db env_api_key =
        PyInitResult.type_error
          "FinRepository.__init__ takes 1 positional argument but 2 were given" ∧
    (∀ svc, fin_service_new db env_api_key ≠ PyInitResult.ok svc) ∧
    (∀ svc, ratio_service_new db env_api_key ≠ PyInitResult.ok svc) := by
  have hrep : fin_repository_new [db] env_api_key =
      PyInitResult.type_error
        "FinRepository.__init__ takes 1 positional argument but 2 were given" := rfl
  have h1 : fin_service_new db env_api_key =
      PyInitResult.type_error
        "FinRepository.__init__ takes 1 positional argument but 2 were given" := by
    simp only [fin_service_new, hrep]
  have h2 : ratio_service_new db env_api_key =
      PyInitResult.type_error
        "FinRepository.__init__ takes 1 positional argument but 2 were given" := by
    simp only [ratio_service_new, hrep]
  refine ⟨h1, h2, fun svc hsvc => ?_, fun svc hsvc => ?_⟩
  · rw [h1] at hsvc
    exact PyInitResult.noConfusion hsvc
  · rw [h2] at hsvc
    exact PyInitResult.noConfusion hsvc

/-- Witness for C10 at a concrete session handle and environment. -/
theorem service_constructor_type_error_witness :
    fin_service_new { session_id := 0 } none =
      PyInitResult.type_error
        "FinRepository.__init__ takes 1 positional argument but 2 were given" :=
  (service_constructor_type_error { session_id := 0 } none).1

end LIF
